import Mathlib

/-!
# Verification development for the billNote media-to-notes pipeline

Shallow embedding of the pipeline orchestrator (`app/services/note.py`),
the transcription-provider registry (`app/transcriber/transcriber_provider.py`)
and the CLI result emitter (`main.py`), together with theorems settling the
frozen claims about caching, mode gating, provider lifecycle, write
disciplines, failure handling and the screenshot post-processor.

External collaborators (platform downloaders, transcription backends, GPT
summarizers, frame extraction, link rewriting) are modelled as oracle
functions supplied in an environment record, as the spec treats them as
opaque capabilities.  File contents are modelled at the level of decoded
artifacts (a JSON round-trip is assumed faithful); the *I/O discipline* of
every write (direct write vs. write-temp-then-rename) is additionally
recorded as an explicit trace of filesystem operations so that atomicity
claims are statable.
-/

set_option autoImplicit false

namespace BillNote

/-! ## Errors

Python exception values raised by the embedded code.  `exception` is a bare
`Exception(msg)`, `importError` an `ImportError`, `noteError` a
`NoteError` (platform not supported), `providerError` a `ProviderError`
(GPT provider lookup failure), `runtimeError` a `RuntimeError`.
`configurationError` does not occur in the source; it is included from the
spec's error taxonomy so that claims mentioning `ConfigurationError` are
statable and comparable against what the code actually raises. -/

inductive PyError where
  | exception (msg : String)
  | importError (msg : String)
  | noteError (msg : String)
  | providerError (msg : String)
  | runtimeError (msg : String)
  | configurationError (msg : String)
  deriving Repr, DecidableEq

/-- `str(e)`: the message carried by the exception. -/
def PyError.msg : PyError → String
  | .exception m => m
  | .importError m => m
  | .noteError m => m
  | .providerError m => m
  | .runtimeError m => m
  | .configurationError m => m

/-! ## Transcriber provider registry (`app/transcriber/transcriber_provider.py`) -/

/-- The `TranscriberType(str, Enum)` of the source. -/
inductive TranscriberType where
  | fast_whisper
  | mlx_whisper
  | bcut
  | kuaishou
  | groq
  deriving Repr, DecidableEq

/-- The string value of each enum member. -/
def TranscriberType.value : TranscriberType → String
  | .fast_whisper => "fast-whisper"
  | .mlx_whisper => "mlx-whisper"
  | .bcut => "bcut"
  | .kuaishou => "kuaishou"
  | .groq => "groq"

/-- `TranscriberType(transcriber_type)`: parse a string token into an enum
member; `none` models the `ValueError` branch. -/
def parseTranscriberType (s : String) : Option TranscriberType :=
  if s = "fast-whisper" then some .fast_whisper
  else if s = "mlx-whisper" then some .mlx_whisper
  else if s = "bcut" then some .bcut
  else if s = "kuaishou" then some .kuaishou
  else if s = "groq" then some .groq
  else none

/-- A constructed transcriber backend instance.  The payload is an opaque
identity so that distinct constructions are distinguishable. -/
structure TranscriberInstance where
  id : Nat
  deriving Repr, DecidableEq

/-- The `_transcribers` module dict: every enum key present, mapped to
`None` until first successful construction. -/
def transcribersInit : List (TranscriberType × Option TranscriberInstance) :=
  [(.fast_whisper, none), (.mlx_whisper, none), (.bcut, none),
   (.kuaishou, none), (.groq, none)]

/-- Dict read `_transcribers[key]` (all five keys are always present;
a missing key reads as `none`, which never arises from the init table). -/
def regLookup : List (TranscriberType × Option TranscriberInstance) →
    TranscriberType → Option TranscriberInstance
  | [], _ => none
  | (q, v) :: rest, k => if q = k then v else regLookup rest k

/-- Dict write `_transcribers[key] = inst` (replace the entry, adding the
key if it were absent, as a dict write does). -/
def regUpdate : List (TranscriberType × Option TranscriberInstance) →
    TranscriberType → Option TranscriberInstance →
    List (TranscriberType × Option TranscriberInstance)
  | [], k, nv => [(k, nv)]
  | (q, v) :: rest, k, nv =>
    if q = k then (q, nv) :: rest else (q, v) :: regUpdate rest k nv

/-- Mutable module state of the provider registry: the `_transcribers`
dict, the trace of construction attempts (each `cls(*args)` call appends
its key), and the log of emitted messages. -/
structure RegState where
  table : List (TranscriberType × Option TranscriberInstance)
  events : List TranscriberType
  logs : List String
  deriving Repr, DecidableEq

/-- Registry state at module import time. -/
def regState0 : RegState := { table := transcribersInit, events := [], logs := [] }

/-- Number of construction attempts made so far for a given type. -/
def attemptsOf (st : RegState) (k : TranscriberType) : Nat :=
  st.events.count k

/-- A construction oracle: the outcome of the `n`-th constructor call
(`cls(*args, **kwargs)`) for one backend type.  Indexing by attempt number
lets a failed first attempt be followed by a succeeding retry, as the real
constructor is an external effect. -/
def Ctor : Type := Nat → Except PyError TranscriberInstance

/-- `_init_transcriber(key, cls, ...)`: construct-if-absent.  On a cached
instance, return it unchanged; otherwise call the constructor, cache on
success, and propagate (without caching) on failure. -/
def init_transcriber (ctor : Ctor) (key : TranscriberType) (st : RegState) :
    RegState × Except PyError TranscriberInstance :=
  match regLookup st.table key with
  | some inst => (st, .ok inst)
  | none =>
    let st' : RegState := { st with events := st.events ++ [key] }
    match ctor (attemptsOf st key) with
    | .error e => (st', .error e)
    | .ok v => ({ st' with table := regUpdate st'.table key (some v) }, .ok v)

/-- Environment of the registry module: platform availability of MLX and
one construction oracle per backend type. -/
structure RegEnv where
  mlxAvailable : Bool
  whisperCtor : Ctor
  mlxCtor : Ctor
  bcutCtor : Ctor
  kuaishouCtor : Ctor
  groqCtor : Ctor

/-- `get_whisper_transcriber` (model size / device only parametrize the
first construction and are absorbed by the oracle). -/
def get_whisper_transcriber (env : RegEnv) (st : RegState) :
    RegState × Except PyError TranscriberInstance :=
  init_transcriber env.whisperCtor .fast_whisper st

/-- `get_bcut_transcriber`. -/
def get_bcut_transcriber (env : RegEnv) (st : RegState) :
    RegState × Except PyError TranscriberInstance :=
  init_transcriber env.bcutCtor .bcut st

/-- `get_kuaishou_transcriber`. -/
def get_kuaishou_transcriber (env : RegEnv) (st : RegState) :
    RegState × Except PyError TranscriberInstance :=
  init_transcriber env.kuaishouCtor .kuaishou st

/-- `get_groq_transcriber`. -/
def get_groq_transcriber (env : RegEnv) (st : RegState) :
    RegState × Except PyError TranscriberInstance :=
  init_transcriber env.groqCtor .groq st

/-- Warning logged by `get_mlx_whisper_transcriber` when MLX is absent. -/
def mlxUnavailableMsg : String :=
  "MLX Whisper 不可用，请确保在 Apple 平台且已安装 mlx_whisper"

/-- `get_mlx_whisper_transcriber`: raises `ImportError` when the platform
does not provide MLX; otherwise construct-if-absent. -/
def get_mlx_whisper_transcriber (env : RegEnv) (st : RegState) :
    RegState × Except PyError TranscriberInstance :=
  if env.mlxAvailable then
    init_transcriber env.mlxCtor .mlx_whisper st
  else
    ({ st with logs := st.logs ++ [mlxUnavailableMsg] },
     .error (.importError "MLX Whisper 不可用"))

/-- Warning logged on an unrecognized string token. -/
def unknownTypeMsg (token : String) : String :=
  "未知转录器类型 \"" ++ token ++ "\"，默认使用 fast-whisper"

/-- Warning logged when MLX is requested but unavailable on this platform. -/
def mlxFallbackMsg : String := "MLX Whisper 不可用，回退到 fast-whisper"

/-- `get_transcriber(transcriber_type, ...)`: parse the token (falling
back to `fast-whisper` with a logged warning on `ValueError`), then
dispatch on the enum; an unavailable MLX request falls back to the
whisper getter with a logged warning.  The trailing `return` fallback of
the source is dead code here since the enum dispatch is exhaustive. -/
def get_transcriber (env : RegEnv) (transcriber_type : String) (st : RegState) :
    RegState × Except PyError TranscriberInstance :=
  let parsed := parseTranscriberType transcriber_type
  let tenum := parsed.getD .fast_whisper
  let st1 : RegState :=
    match parsed with
    | some _ => st
    | none => { st with logs := st.logs ++ [unknownTypeMsg transcriber_type] }
  match tenum with
  | .fast_whisper => get_whisper_transcriber env st1
  | .mlx_whisper =>
    if env.mlxAvailable then
      get_mlx_whisper_transcriber env st1
    else
      get_whisper_transcriber env
        { st1 with logs := st1.logs ++ [mlxFallbackMsg] }
  | .bcut => get_bcut_transcriber env st1
  | .kuaishou => get_kuaishou_transcriber env st1
  | .groq => get_groq_transcriber env st1

/-- `NoteGenerator._init_transcriber` (`app/services/note.py`): the
configured type string is tested for membership in the `_transcribers`
dict (whose keys are the five str-enum members, so membership is exactly
parse success); an absent key raises a bare `Exception`, otherwise the
request is delegated to `get_transcriber`. -/
def noteGenerator_init_transcriber (env : RegEnv) (transcriber_type : String)
    (st : RegState) : RegState × Except PyError TranscriberInstance :=
  if (parseTranscriberType transcriber_type).isSome then
    get_transcriber env transcriber_type st
  else
    (st, .error (.exception ("不支持的转写器：" ++ transcriber_type)))

/-- `N` serial requests for the same provider type: `requestN ... n` is
the `(n+1)`-st request's outcome. -/
def requestN (ctor : Ctor) (key : TranscriberType) (st : RegState) :
    Nat → RegState × Except PyError TranscriberInstance
  | 0 => init_transcriber ctor key st
  | n + 1 => init_transcriber ctor key (requestN ctor key st n).1

/-! ## Data model of the pipeline artifacts (`app/models/*`, modelled from
the spec and from field usage in `note.py` / `main.py`, the model modules
themselves not being part of the excerpted source) -/

/-- Modelled from the spec: `DownloadQuality` is "one of a small fixed
enumeration (e.g., low/medium/high)" (`app/enmus/note_enums.py` is not in
the excerpt). -/
inductive DownloadQuality where
  | low
  | medium
  | high
  deriving Repr, DecidableEq

/-- Modelled from the spec: raw platform metadata mapping attached to a
download result; only its `tags` entry is read by the orchestrator
(`audio_meta.raw_info.get("tags", [])`), the rest is opaque payload. -/
structure RawInfo where
  tags : List String
  extra : List (String × String)
  deriving Repr, DecidableEq

/-- Modelled from the spec: `AudioDownloadResult` — "file path to extracted
audio, source title, raw platform metadata, video identifier" (fields as
used in `note.py` and `main.py`). -/
structure AudioDownloadResult where
  file_path : String
  title : String
  video_id : String
  raw_info : RawInfo
  deriving Repr, DecidableEq

/-- One transcript segment (`start`, `end`, `text`); the time stamps are
opaque payload here (`end_` since `end` is reserved). -/
structure TranscriptSegment where
  start : Int
  end_ : Int
  text : String
  deriving Repr, DecidableEq

/-- `TranscriptResult`: language code, full concatenated text, ordered
segments. -/
structure TranscriptResult where
  language : String
  full_text : String
  segments : List TranscriptSegment
  deriving Repr, DecidableEq

/-- `GPTSource` as composed by `_summarize_text`. -/
structure GPTSource where
  title : String
  segment : List TranscriptSegment
  tags : List String
  screenshot : Bool
  video_img_urls : List String
  link : Bool
  _format : List String
  style : Option String
  extras : Option String
  deriving Repr, DecidableEq

/-- `NoteResult(markdown, transcript, audio_meta)`. -/
structure NoteResult where
  markdown : String
  transcript : Option TranscriptResult
  audio_meta : AudioDownloadResult
  deriving Repr, DecidableEq

/-! ## Filesystem model

File contents are modelled at artifact level: the download cache holds a
JSON-encoded `AudioDownloadResult`, the transcript cache a JSON-encoded
`TranscriptResult`, the markdown cache raw text, and the CLI result path a
JSON document (`cliJson`).  The JSON round-trip
(`json.loads(json.dumps(asdict(x)))` followed by reconstruction) is taken
as faithful, so a cache read decodes to the value that was stored. -/

/-- The transcript object embedded in the CLI result document: the full
text under the two redundant field names, plus the segment list. -/
structure CliTranscript where
  full_text : String
  fullText : String
  segments : List TranscriptSegment
  deriving Repr, DecidableEq

/-- The batch-mode final result document (`result_payload` /
`error_payload` in `main.py`).  Optional fields are present only in one of
the two payload shapes. -/
structure CliPayload where
  bvid : String
  platform : String
  url : String
  engine : String
  stage : Option String
  status : String
  transcript : Option CliTranscript
  summary : String
  meta : Option RawInfo
  error : Option String
  deriving Repr, DecidableEq

/-- Decoded content of a file. -/
inductive FsContent where
  | audioJson (a : AudioDownloadResult)
  | transcriptJson (t : TranscriptResult)
  | text (s : String)
  | cliJson (p : CliPayload)
  deriving Repr, DecidableEq

/-- A filesystem: association list from path to content (latest write
first). -/
abbrev Fs := List (String × FsContent)

/-- Read the file at a path, if present. -/
def fsLookup : Fs → String → Option FsContent
  | [], _ => none
  | (q, c) :: rest, p => if q = p then some c else fsLookup rest p

/-- One observable filesystem operation, recorded to make write
disciplines statable: `writeFile` is a plain in-place write (`write_text`
or `open(...).write`) whose partial content is observable at the target
path if the writer crashes mid-write; `rename` is an atomic
`os.replace`. -/
inductive FsOp where
  | writeFile (path : String) (content : FsContent)
  | rename (src dst : String)
  deriving Repr, DecidableEq

/-- Does this operation write in place at `p`? -/
def FsOp.isWriteTo (op : FsOp) (p : String) : Bool :=
  match op with
  | .writeFile q _ => q = p
  | .rename _ _ => false

/-- Does this operation atomically install content at `p`? -/
def FsOp.isRenameTo (op : FsOp) (p : String) : Bool :=
  match op with
  | .writeFile _ _ => false
  | .rename _ q => q = p

/-- A trace exposes partially-written content at `p` exactly when some
operation writes in place at `p`. -/
def writesDirectlyTo (ops : List FsOp) (p : String) : Bool :=
  ops.any (fun op => op.isWriteTo p)

/-- The write-temp-then-atomic-rename discipline at path `p`: content
reaches `p` only through renames, and at least one rename targets `p`. -/
def tempThenRenameAt (ops : List FsOp) (p : String) : Bool :=
  !writesDirectlyTo ops p && ops.any (fun op => op.isRenameTo p)

/-! ## Pipeline orchestrator (`app/services/note.py`) -/

/-- Counters and traces of invocations of the external capabilities and of
filesystem writes made during a pipeline run. -/
structure Calls where
  downloads : Nat
  videoDownloads : Nat
  transcriptions : Nat
  summaries : Nat
  frames : List (Nat × Nat)
  linkRewrites : Nat
  metadataSaves : Nat
  fsOps : List FsOp
  deriving Repr, DecidableEq

/-- Mutable state threaded through one `NoteGenerator`'s pipeline run:
the filesystem, the call/trace record, and the `self.video_path` /
`self.video_img_urls` instance attributes. -/
structure GenState where
  fs : Fs
  calls : Calls
  video_path : Option String
  video_img_urls : List String
  deriving Repr, DecidableEq

/-- `write_text`: a direct in-place write to `path`, updating the
filesystem and recording the operation. -/
def writeText (st : GenState) (path : String) (content : FsContent) : GenState :=
  { st with
    fs := (path, content) :: st.fs,
    calls := { st.calls with fsOps := st.calls.fsOps ++ [.writeFile path content] } }

/-- External collaborators of the orchestrator.  Fallible capabilities
return `Except PyError`; `platform_supported` models
`SUPPORT_PLATFORM_MAP.get(platform)` being non-null and `get_gpt` the
provider lookup + GPT factory of `_get_gpt`. -/
structure Env where
  platform_supported : String → Bool
  get_gpt : String → String → Except PyError Unit
  download : String → DownloadQuality → Option String → Bool →
    Except PyError AudioDownloadResult
  download_video : String → Except PyError String
  videoReaderRun : String → List Int → Int → List String
  transcript : String → Except PyError TranscriptResult
  summarize : GPTSource → Except PyError String
  generate_screenshot : String → String → Nat → Nat → String
  replace_content_markers : String → String → String → String

/-- Mode configuration fixed at process start: `IS_CLI_MODE` and the
mode-derived directories (`NOTE_OUTPUT_DIR`, `IMAGE_OUTPUT_DIR`,
`IMAGE_BASE_URL`). -/
structure ModeConfig where
  isCliMode : Bool
  noteOutputDir : String
  imageOutputDir : String
  imageBaseUrl : String
  deriving Repr, DecidableEq

/-- The tail of `_download_media` after the conditional video step:
`downloader.download(...)` followed by the direct cache write. -/
def download_audio_part (env : Env) (video_url : String)
    (quality : DownloadQuality) (audio_cache_file : String)
    (output_path : Option String) (need_video : Bool) (st : GenState) :
    GenState × Except PyError AudioDownloadResult :=
  match env.download video_url quality output_path need_video with
  | .error e =>
    ({ st with calls := { st.calls with
         downloads := st.calls.downloads + 1 } }, .error e)
  | .ok audio =>
    let st1 : GenState :=
      { st with calls := { st.calls with
          downloads := st.calls.downloads + 1 } }
    (writeText st1 audio_cache_file (.audioJson audio), .ok audio)

/-- `NoteGenerator._download_media`: cache-checked first (returning the
decoded artifact on a hit); on a miss, conditionally downloads the video
(and runs the frame-grid reader), then downloads the audio and writes the
cache with a direct `write_text`.  A cache file of the wrong shape is a
deserialization failure, not a miss. -/
def download_media (env : Env) (video_url : String) (quality : DownloadQuality)
    (audio_cache_file : String) (output_path : Option String)
    (screenshot video_understanding : Bool) (video_interval : Int)
    (grid_size : List Int) (st : GenState) :
    GenState × Except PyError AudioDownloadResult :=
  match fsLookup st.fs audio_cache_file with
  | some (.audioJson a) => (st, .ok a)
  | some _ => (st, .error (.exception "audio cache: invalid JSON document"))
  | none =>
    if screenshot || video_understanding then
      match env.download_video video_url with
      | .error e =>
        ({ st with calls := { st.calls with
             videoDownloads := st.calls.videoDownloads + 1 } }, .error e)
      | .ok p =>
        if grid_size ≠ [] then
          download_audio_part env video_url quality audio_cache_file output_path
            (screenshot || video_understanding)
            { st with
              video_path := some p,
              video_img_urls := env.videoReaderRun p grid_size video_interval,
              calls := { st.calls with
                videoDownloads := st.calls.videoDownloads + 1 } }
        else
          download_audio_part env video_url quality audio_cache_file output_path
            (screenshot || video_understanding)
            { st with
              video_path := some p,
              calls := { st.calls with
                videoDownloads := st.calls.videoDownloads + 1 } }
    else
      download_audio_part env video_url quality audio_cache_file output_path
        (screenshot || video_understanding) st

/-- `NoteGenerator._transcribe_audio`: cache-checked first; on a miss,
invokes the resolved transcriber and writes the cache with a direct
`write_text`. -/
def transcribe_audio (env : Env) (audio_file : String)
    (transcript_cache_file : String) (st : GenState) :
    GenState × Except PyError TranscriptResult :=
  match fsLookup st.fs transcript_cache_file with
  | some (.transcriptJson t) => (st, .ok t)
  | some _ => (st, .error (.exception "transcript cache: invalid JSON document"))
  | none =>
    let st1 : GenState :=
      { st with calls := { st.calls with
          transcriptions := st.calls.transcriptions + 1 } }
    match env.transcript audio_file with
    | .error e => (st1, .error e)
    | .ok t => (writeText st1 transcript_cache_file (.transcriptJson t), .ok t)

/-- `NoteGenerator._summarize_text`: cache-checked first (`read_text` of
the markdown file); on a miss, composes the `GPTSource` and invokes the
summarizer, writing the cache with a direct `write_text`.  (A non-text
content at the markdown path cannot arise from this pipeline; it is mapped
to a read failure.) -/
def summarize_text (env : Env) (audio_meta : AudioDownloadResult)
    (transcript : TranscriptResult) (markdown_cache_file : String)
    (link screenshot : Bool) (formats : List String)
    (style extras : Option String) (video_img_urls : List String)
    (st : GenState) : GenState × Except PyError String :=
  match fsLookup st.fs markdown_cache_file with
  | some (.text s) => (st, .ok s)
  | some _ => (st, .error (.exception "markdown cache: unreadable"))
  | none =>
    match env.summarize
        { title := audio_meta.title,
          segment := transcript.segments,
          tags := audio_meta.raw_info.tags,
          screenshot := screenshot,
          video_img_urls := video_img_urls,
          link := link,
          _format := formats,
          style := style,
          extras := extras } with
    | .error e =>
      ({ st with calls := { st.calls with
           summaries := st.calls.summaries + 1 } }, .error e)
    | .ok markdown =>
      (writeText
        { st with calls := { st.calls with
            summaries := st.calls.summaries + 1 } }
        markdown_cache_file (.text markdown), .ok markdown)

/-! ## Screenshot marker scanning (`_extract_screenshot_timestamps`)

The source scans with
`(?:\*Screenshot-(\d{2}):(\d{2})|Screenshot-\[(\d{2}):(\d{2})\])` via
`re.finditer`, which yields non-overlapping matches in document order,
retrying from the next character when no alternative matches at the
current position.  The two alternatives begin with distinct characters
(`*` and `S`), so at most one can match at a given position. -/

/-- Numeric value of an ASCII digit. -/
def digitVal (c : Char) : Nat := c.toNat - 48

/-- The literal head of the asterisked marker form. -/
def astPat : List Char := "*Screenshot-".toList

/-- The literal head of the bracketed marker form. -/
def brkPat : List Char := "Screenshot-[".toList

/-- Strip an expected literal from the front of the input, returning the
remainder on success. -/
def dropPrefixCh : List Char → List Char → Option (List Char)
  | [], s => some s
  | _ :: _, [] => none
  | p :: ps, c :: cs => if c = p then dropPrefixCh ps cs else none

/-- Match `\d{2}:\d{2}` at the head of the input, returning the five
matched characters and the decoded offset `minutes*60 + seconds`. -/
def matchTimestampAt (l : List Char) : Option (List Char × Nat) :=
  match l with
  | d1 :: d2 :: ':' :: d3 :: d4 :: _ =>
    if d1.isDigit && d2.isDigit && d3.isDigit && d4.isDigit then
      some ([d1, d2, ':', d3, d4],
        (10 * digitVal d1 + digitVal d2) * 60 + (10 * digitVal d3 + digitVal d4))
    else none
  | _ => none

/-- Try both marker alternatives at the current position, returning the
matched literal text, the decoded second offset, and the number of
characters consumed (17 for the asterisked form, 18 for the bracketed
form). -/
def matchMarker (l : List Char) : Option (List Char × Nat × Nat) :=
  match dropPrefixCh astPat l with
  | some r =>
    match matchTimestampAt r with
    | some (ds, ts) => some (astPat ++ ds, ts, 17)
    | none => none
  | none =>
    match dropPrefixCh brkPat l with
    | some r =>
      match matchTimestampAt r with
      | some (ds, ts) =>
        match r.drop 5 with
        | ']' :: _ => some (brkPat ++ ds ++ [']'], ts, 18)
        | _ => none
      | none => none
    | none => none

/-- The `re.finditer` loop: emit a match and resume after it, or advance
one character.  The first argument is a structural bound on the number of
scan steps; every step consumes at least one character of the remaining
text, so the text length (which `extract_screenshot_timestamps` passes)
always suffices and the zero-fuel case is unreachable. -/
def extractMarkersAux : Nat → List Char → List (List Char × Nat)
  | _, [] => []
  | 0, _ :: _ => []
  | fuel + 1, c :: cs =>
    match matchMarker (c :: cs) with
    | some (m, ts, len) => (m, ts) :: extractMarkersAux fuel ((c :: cs).drop len)
    | none => extractMarkersAux fuel cs

/-- `NoteGenerator._extract_screenshot_timestamps`: all marker matches in
document order, each paired with its decoded second offset. -/
def extract_screenshot_timestamps (markdown : String) : List (String × Nat) :=
  (extractMarkersAux markdown.toList.length markdown.toList).map
    (fun p => (String.mk p.1, p.2))

/-- Python `s.replace(pat, rep, 1)`: replace the first occurrence of
`pat` (an empty pattern matches at the front). -/
def replaceFirstChars (pat rep : List Char) : List Char → List Char
  | [] => if pat.isEmpty then rep else []
  | c :: cs =>
    if pat.isPrefixOf (c :: cs) then rep ++ (c :: cs).drop pat.length
    else c :: replaceFirstChars pat rep cs

/-- String wrapper for single-occurrence replacement. -/
def replaceFirst (s pat rep : String) : String :=
  String.mk (replaceFirstChars pat.toList rep.toList s.toList)

/-- Python `s.rstrip("/")`. -/
def rstripSlash (s : String) : String :=
  String.mk ((s.toList.reverse.dropWhile (fun c => c = '/')).reverse)

/-- `Path(p).name`: the component after the last slash. -/
def pathName (s : String) : String :=
  String.mk ((s.toList.reverse.takeWhile (fun c => c ≠ '/')).reverse)

/-- One iteration of the `_insert_screenshots` loop: request the frame at
the match's offset with the match's enumeration index, and replace the
first remaining occurrence of the literal marker with the image
reference. -/
def insert_screenshots_step (env : Env) (cfg : ModeConfig)
    (video_path : String) (acc : GenState × String)
    (p : Nat × String × Nat) : GenState × String :=
  ({ acc.1 with calls := { acc.1.calls with
       frames := acc.1.calls.frames ++ [(p.2.2, p.1)] } },
   replaceFirst acc.2 p.2.1
     ("![](" ++
      (rstripSlash cfg.imageBaseUrl ++ "/" ++
        pathName (env.generate_screenshot video_path cfg.imageOutputDir
          p.2.2 p.1)) ++ ")"))

/-- `NoteGenerator._insert_screenshots`: for each match, in document
order, request a rendered frame at the decoded offset with the match's
position as sequence index, and replace the first remaining occurrence of
the literal marker with an image reference built from the configured base
URL and the rendered file's name. -/
def insert_screenshots (env : Env) (cfg : ModeConfig) (markdown : String)
    (video_path : String) (st : GenState) : GenState × String :=
  (extract_screenshot_timestamps markdown).enum.foldl
    (insert_screenshots_step env cfg video_path) (st, markdown)

/-- `NoteGenerator._post_process_markdown`: identity in CLI mode;
otherwise screenshot insertion when requested and a video path is set,
then link rewriting when requested. -/
def post_process_markdown (env : Env) (cfg : ModeConfig) (markdown : String)
    (video_path : Option String) (formats : List String)
    (audio_meta : AudioDownloadResult) (platform : String) (st : GenState) :
    GenState × String :=
  if cfg.isCliMode then (st, markdown)
  else
    let step1 : GenState × String :=
      match video_path with
      | some vp =>
        if formats.contains "screenshot" then insert_screenshots env cfg markdown vp st
        else (st, markdown)
      | none => (st, markdown)
    if formats.contains "link" then
      ({ step1.1 with calls := { step1.1.calls with
           linkRewrites := step1.1.calls.linkRewrites + 1 } },
       env.replace_content_markers step1.2 audio_meta.video_id platform)
    else step1

/-! ## `NoteGenerator.generate` -/

/-- The caller-supplied arguments of `generate` (with the source's
defaults normalized: `grid_size or []` and `_format or []` make the two
optional lists plain lists). -/
structure GenerateArgs where
  video_url : String
  platform : String
  quality : DownloadQuality
  task_id : String
  model_name : Option String
  provider_id : Option String
  link : Bool
  screenshot : Bool
  _format : List String
  style : Option String
  extras : Option String
  output_path : Option String
  video_understanding : Bool
  video_interval : Int
  grid_size : List Int
  summary : Bool
  transcribe : Bool
  deriving Repr, DecidableEq

/-- The CLI-mode flag override applied before any stage executes. -/
def cliOverride (a : GenerateArgs) : GenerateArgs :=
  { a with screenshot := false, video_understanding := false, _format := [],
           link := false, summary := false }

/-- `if summary and model_name and provider_id:` (Python truthiness:
absent or empty strings are falsy). -/
def gptRequested (a : GenerateArgs) : Bool :=
  a.summary && !(a.model_name.getD "").isEmpty && !(a.provider_id.getD "").isEmpty

/-- The cache path `NOTE_OUTPUT_DIR / f"{task_id}{suffix}"`. -/
def cachePath (cfg : ModeConfig) (task_id suffix : String) : String :=
  cfg.noteOutputDir ++ "/" ++ task_id ++ suffix

/-- The GPT resolution step: `gpt = self._get_gpt(...)` when requested,
yielding whether a summarizer handle is present. -/
def generate_gpt_step (env : Env) (a : GenerateArgs) : Except PyError Bool :=
  if gptRequested a then
    match env.get_gpt ((a.model_name).getD "") ((a.provider_id).getD "") with
    | .error e => .error e
    | .ok _ => .ok true
  else .ok false

/-- The conditional transcription stage (`if transcribe:`). -/
def generate_transcribe_stage (env : Env) (transcribe : Bool)
    (audio_file transcript_cache_file : String) (st : GenState) :
    GenState × Except PyError (Option TranscriptResult) :=
  if transcribe then
    match transcribe_audio env audio_file transcript_cache_file st with
    | (st2, .error e) => (st2, .error e)
    | (st2, .ok t) => (st2, .ok (some t))
  else (st, .ok none)

/-- The conditional summarization stage (`if gpt and transcript:`,
otherwise `markdown = ""`). -/
def generate_summary_stage (env : Env) (a : GenerateArgs)
    (audio_meta : AudioDownloadResult) (transcript : Option TranscriptResult)
    (hasGpt : Bool) (markdown_cache_file : String) (st : GenState) :
    GenState × Except PyError String :=
  match transcript, hasGpt with
  | some t, true =>
    summarize_text env audio_meta t markdown_cache_file a.link a.screenshot
      a._format a.style a.extras st.video_img_urls st
  | _, _ => (st, .ok "")

/-- The conditional post-processing step
(`if not IS_CLI_MODE and _format:`). -/
def generate_post_stage (env : Env) (cfg : ModeConfig) (a : GenerateArgs)
    (audio_meta : AudioDownloadResult) (markdown0 : String) (st : GenState) :
    GenState × String :=
  if cfg.isCliMode then (st, markdown0)
  else if a._format.isEmpty then (st, markdown0)
  else post_process_markdown env cfg markdown0 st.video_path a._format
    audio_meta a.platform st

/-- The finalize step (`if not IS_CLI_MODE: self._save_metadata(...)`). -/
def generate_finalize (cfg : ModeConfig) (st : GenState) : GenState :=
  if cfg.isCliMode then st
  else { st with calls := { st.calls with
           metadataSaves := st.calls.metadataSaves + 1 } }

/-- The `try:` block of `generate` with the effective (post-override)
arguments: downloader lookup, GPT resolution, the four stages in order,
and metadata finalization; any stage error aborts the remainder. -/
def generateRun (env : Env) (cfg : ModeConfig) (a : GenerateArgs)
    (st : GenState) : GenState × Except PyError NoteResult :=
  if !env.platform_supported a.platform then
    (st, .error (.noteError "platform not supported"))
  else
    match generate_gpt_step env a with
    | .error e => (st, .error e)
    | .ok hasGpt =>
      match download_media env a.video_url a.quality
          (cachePath cfg a.task_id "_audio.json") a.output_path
          a.screenshot a.video_understanding a.video_interval a.grid_size st with
      | (st1, .error e) => (st1, .error e)
      | (st1, .ok audio_meta) =>
        match generate_transcribe_stage env a.transcribe audio_meta.file_path
            (cachePath cfg a.task_id "_transcript.json") st1 with
        | (st2, .error e) => (st2, .error e)
        | (st2, .ok transcript) =>
          match generate_summary_stage env a audio_meta transcript hasGpt
              (cachePath cfg a.task_id "_markdown.md") st2 with
          | (st3, .error e) => (st3, .error e)
          | (st3, .ok markdown0) =>
            (generate_finalize cfg
              (generate_post_stage env cfg a audio_meta markdown0 st3).1,
             .ok { markdown :=
                     (generate_post_stage env cfg a audio_meta markdown0 st3).2,
                   transcript := transcript, audio_meta := audio_meta })

/-- The body of `generate` up to (but not including) the enclosing broad
`except`: the CLI-mode override is applied first, then the stages run; the
value's `error` is the exception the handler would catch. -/
def generateBody (env : Env) (cfg : ModeConfig) (args0 : GenerateArgs)
    (st : GenState) : GenState × Except PyError NoteResult :=
  generateRun env cfg (if cfg.isCliMode then cliOverride args0 else args0) st

/-- `NoteGenerator.generate`: the broad `except Exception` logs the
failure and returns `None`, so the caller sees only an optional result. -/
def generate (env : Env) (cfg : ModeConfig) (args0 : GenerateArgs)
    (st : GenState) : GenState × Option NoteResult :=
  ((generateBody env cfg args0 st).1,
   (generateBody env cfg args0 st).2.toOption)

/-! ## CLI entry point (`main.py`) -/

/-- One character of the `[0-9A-Za-z]` class. -/
def isBvChar (c : Char) : Bool := c.isAlphanum

/-- `re.search(r"(BV[0-9A-Za-z]\x7b10\x7d)", url)`: find the leftmost
position where `BV` is followed by ten alphanumeric characters. -/
def findBv : List Char → Option (List Char)
  | [] => none
  | 'B' :: 'V' :: rest =>
    let ten := rest.take 10
    if (ten.length == 10) && ten.all isBvChar then some ('B' :: 'V' :: ten)
    else findBv ('V' :: rest)
  | _ :: cs => findBv cs

/-- `extract_bvid`: the matched BV id, or the `UNKNOWN_{abs(hash(url))}`
fallback (the process-specific string hash is an oracle parameter). -/
def extract_bvid (urlHash : String → Nat) (url : String) : String :=
  match findBv url.toList with
  | some bv => String.mk bv
  | none => "UNKNOWN_" ++ toString (urlHash url)

/-- The deterministic batch-mode result path for a business key. -/
def cliResultPath (bvid : String) : String :=
  "/data/content/" ++ bvid ++ "/result.json"

/-- `save_cli_result`: write the JSON payload to `result.json.tmp`, then
atomically `os.replace` it onto `result.json`. -/
def save_cli_result (bvid : String) (payload : CliPayload) : List FsOp :=
  let final_path := cliResultPath bvid
  let tmp_path := final_path ++ ".tmp"
  [.writeFile tmp_path (.cliJson payload), .rename tmp_path final_path]

/-- The mode configuration forced by CLI mode. -/
def cliModeConfig : ModeConfig :=
  { isCliMode := true, noteOutputDir := "/tmp/billnote_runtime",
    imageOutputDir := "/tmp/billnote_images", imageBaseUrl := "" }

/-- The `generate` invocation made by the CLI main. -/
def cliArgs (video_url task_id : String) : GenerateArgs :=
  { video_url := video_url, platform := "bilibili", quality := .medium,
    task_id := task_id, model_name := none, provider_id := none,
    link := false, screenshot := false, _format := [], style := none,
    extras := none, output_path := none, video_understanding := false,
    video_interval := 0, grid_size := [], summary := false, transcribe := true }

/-- The `error_payload` document of the CLI failure branch. -/
def cliFailPayload (bvid url msg : String) : CliPayload :=
  { bvid := bvid, platform := "bilibili", url := url,
    engine := "billnote-whisper-pure", stage := none, status := "FAILED",
    transcript := none, summary := "", meta := none, error := some msg }

/-- The `result_payload` document of the CLI success branch. -/
def cliSuccessPayload (bvid url : String) (r : NoteResult)
    (t : TranscriptResult) : CliPayload :=
  { bvid := bvid, platform := "bilibili", url := url,
    engine := "billnote-whisper-pure", stage := some "transcript",
    status := "SUCCESS",
    transcript := some { full_text := t.full_text, fullText := t.full_text,
                         segments := t.segments },
    summary := "", meta := some r.audio_meta.raw_info, error := none }

/-- Outcome of one CLI run: final pipeline state, result-document
operations, and process exit code. -/
structure CliOutcome where
  genState : GenState
  ops : List FsOp
  exitCode : Nat
  deriving Repr, DecidableEq

/-- The `__main__` CLI branch: extract the business key, construct the
generator (whose transcriber resolution may raise), run the pipeline, and
emit either the success document or — on any caught exception, including
the `RuntimeError` raised when the result or its transcript is missing —
the `FAILED` document, both through `save_cli_result`. -/
def cliMain (env : Env) (regEnv : RegEnv) (urlHash : String → Nat)
    (transcriberTypeEnv : String) (video_url : String) (st : GenState) :
    CliOutcome :=
  match (noteGenerator_init_transcriber regEnv transcriberTypeEnv regState0).2 with
  | .error e =>
    { genState := st,
      ops := save_cli_result (extract_bvid urlHash video_url)
        (cliFailPayload (extract_bvid urlHash video_url) video_url e.msg),
      exitCode := 1 }
  | .ok _ =>
    match (generate env cliModeConfig
        (cliArgs video_url ("task_" ++ extract_bvid urlHash video_url)) st).2 with
    | none =>
      { genState := (generate env cliModeConfig
          (cliArgs video_url ("task_" ++ extract_bvid urlHash video_url)) st).1,
        ops := save_cli_result (extract_bvid urlHash video_url)
          (cliFailPayload (extract_bvid urlHash video_url) video_url
            "转写失败或结果为空"),
        exitCode := 1 }
    | some r =>
      match r.transcript with
      | none =>
        { genState := (generate env cliModeConfig
            (cliArgs video_url ("task_" ++ extract_bvid urlHash video_url)) st).1,
          ops := save_cli_result (extract_bvid urlHash video_url)
            (cliFailPayload (extract_bvid urlHash video_url) video_url
              "转写失败或结果为空"),
          exitCode := 1 }
      | some t =>
        { genState := (generate env cliModeConfig
            (cliArgs video_url ("task_" ++ extract_bvid urlHash video_url)) st).1,
          ops := save_cli_result (extract_bvid urlHash video_url)
            (cliSuccessPayload (extract_bvid urlHash video_url) video_url r t),
          exitCode := 0 }

/-- Does the request outcome carry the spec taxonomy's
`ConfigurationError`? -/
def isConfigurationErrorResult :
    Except PyError TranscriberInstance → Bool
  | .error (.configurationError _) => true
  | _ => false

/-- A concrete registry environment on a platform without MLX. -/
def regEnvNoMlx : RegEnv :=
  { mlxAvailable := false, whisperCtor := fun _ => .ok ⟨1⟩,
    mlxCtor := fun _ => .ok ⟨2⟩, bcutCtor := fun _ => .ok ⟨3⟩,
    kuaishouCtor := fun _ => .ok ⟨4⟩, groqCtor := fun _ => .ok ⟨5⟩ }

/-! ## Concrete fixtures used by witnesses and counterexamples -/

/-- A concrete metadata record. -/
def rawInfoW : RawInfo := { tags := ["talk"], extra := [] }

/-- A concrete download artifact. -/
def audioW : AudioDownloadResult :=
  { file_path := "/tmp/a.mp3", title := "T", video_id := "BV1xx411c7ab",
    raw_info := rawInfoW }

/-- A concrete transcript. -/
def transcriptW : TranscriptResult :=
  { language := "zh", full_text := "hi", segments := [⟨0, 3, "hi"⟩] }

/-- Zeroed call record. -/
def calls0 : Calls :=
  { downloads := 0, videoDownloads := 0, transcriptions := 0, summaries := 0,
    frames := [], linkRewrites := 0, metadataSaves := 0, fsOps := [] }

/-- Fresh pipeline state over an empty filesystem. -/
def stEmpty : GenState :=
  { fs := [], calls := calls0, video_path := none, video_img_urls := [] }

/-- A concrete, always-succeeding environment. -/
def envW : Env :=
  { platform_supported := fun p => p == "bilibili",
    get_gpt := fun _ _ => .ok (),
    download := fun _ _ _ _ => .ok audioW,
    download_video := fun _ => .ok "/tmp/v.mp4",
    videoReaderRun := fun _ _ _ => [],
    transcript := fun _ => .ok transcriptW,
    summarize := fun _ => .ok "md *Screenshot-00:10",
    generate_screenshot := fun _ _ ts idx =>
      "/shots/s_" ++ toString idx ++ "_" ++ toString ts ++ ".png",
    replace_content_markers := fun md _ _ => md }

/-- A caller request with every visual/model flag switched on, used to
exercise the CLI-mode override. -/
def aFlagsW : GenerateArgs :=
  { (cliArgs "u" "t3") with
    screenshot := true, link := true, summary := true,
    video_understanding := true, _format := ["screenshot", "link"],
    model_name := some "m", provider_id := some "p", grid_size := [2, 2] }

/-- The service-mode configuration (environment defaults of the
non-CLI branch). -/
def cfgService : ModeConfig :=
  { isCliMode := false, noteOutputDir := "note_results",
    imageOutputDir := "./static/screenshots",
    imageBaseUrl := "/static/screenshots" }

/-- A plain service-mode request. -/
def argsService : GenerateArgs := cliArgs "u" "t9"

/-- An environment whose downloader fails with one exception. -/
def envFailA : Env :=
  { envW with download := fun _ _ _ _ => .error (.exception "disk full") }

/-- An environment whose downloader fails with a different exception. -/
def envFailB : Env :=
  { envW with download := fun _ _ _ _ => .error (.runtimeError "network timeout") }

/-- A service-mode request asking for screenshots. -/
def aScreenshot : GenerateArgs :=
  { (cliArgs "u" "t5") with
    screenshot := true, _format := ["screenshot"] }

/-- A state whose download-stage cache artifact already exists. -/
def stCachedAudio : GenState :=
  { stEmpty with
    fs := [(cachePath cfgService "t5" "_audio.json", .audioJson audioW)] }

/-! ## Registry lemmas -/

theorem regLookup_regUpdate_self
    (t : List (TranscriberType × Option TranscriberInstance))
    (k : TranscriberType) (v : Option TranscriberInstance) :
    regLookup (regUpdate t k v) k = v := by
  induction t with
  | nil => simp [regUpdate, regLookup]
  | cons hd tl ih =>
    obtain ⟨q, w⟩ := hd
    by_cases hq : q = k
    · simp [regUpdate, regLookup, hq]
    · simp [regUpdate, regLookup, hq, ih]

theorem init_transcriber_cached {ctor : Ctor} {key : TranscriberType}
    {st : RegState} {v : TranscriberInstance}
    (h : regLookup st.table key = some v) :
    init_transcriber ctor key st = (st, .ok v) := by
  simp [init_transcriber, h]

theorem init_transcriber_fresh_ok {ctor : Ctor} {key : TranscriberType}
    {st : RegState} {v : TranscriberInstance}
    (hfresh : regLookup st.table key = none)
    (hok : ctor (attemptsOf st key) = .ok v) :
    init_transcriber ctor key st =
      ({ table := regUpdate st.table key (some v),
         events := st.events ++ [key], logs := st.logs }, .ok v) := by
  simp [init_transcriber, hfresh, hok]

theorem init_transcriber_fresh_err {ctor : Ctor} {key : TranscriberType}
    {st : RegState} {e : PyError}
    (hfresh : regLookup st.table key = none)
    (herr : ctor (attemptsOf st key) = .error e) :
    init_transcriber ctor key st =
      ({ st with events := st.events ++ [key] }, .error e) := by
  simp [init_transcriber, hfresh, herr]

theorem init_transcriber_logs (ctor : Ctor) (key : TranscriberType)
    (st : RegState) : (init_transcriber ctor key st).1.logs = st.logs := by
  unfold init_transcriber
  split
  · rfl
  · split <;> rfl

theorem attemptsOf_append_self (st : RegState) (key : TranscriberType) :
    attemptsOf { st with events := st.events ++ [key] } key =
      attemptsOf st key + 1 := by
  simp [attemptsOf, List.count_append]

/-- **C3**: for every provider type, serial requests return an instance
constructed exactly once — the table entry is set on the first successful
construction and every later request returns it with no further
construction attempt (the event trace gains exactly one entry, the state
is fixed) — while a failed construction is not cached: the table entry
stays empty, the error propagates, and the next request for the same type
attempts construction again (and succeeds if the retry succeeds). -/
theorem provider_singleton (ctor : Ctor) (key : TranscriberType)
    (st : RegState) (hfresh : regLookup st.table key = none) :
    (∀ v, ctor (attemptsOf st key) = .ok v → ∀ n,
      requestN ctor key st n =
        ({ table := regUpdate st.table key (some v),
           events := st.events ++ [key], logs := st.logs }, .ok v))
    ∧ (∀ e, ctor (attemptsOf st key) = .error e →
      init_transcriber ctor key st =
        ({ st with events := st.events ++ [key] }, .error e)
      ∧ regLookup (init_transcriber ctor key st).1.table key = none
      ∧ attemptsOf (init_transcriber ctor key
          (init_transcriber ctor key st).1).1 key = attemptsOf st key + 2
      ∧ ∀ v2, ctor (attemptsOf st key + 1) = .ok v2 →
          (init_transcriber ctor key (init_transcriber ctor key st).1).2 =
            .ok v2) := by
  constructor
  · intro v hok n
    induction n with
    | zero => exact init_transcriber_fresh_ok hfresh hok
    | succ n ih =>
      have hcache :
          regLookup (requestN ctor key st n).1.table key = some v := by
        rw [ih]; exact regLookup_regUpdate_self _ _ _
      show init_transcriber ctor key (requestN ctor key st n).1 = _
      rw [init_transcriber_cached hcache, ih]
  · intro e herr
    have h1 := init_transcriber_fresh_err hfresh herr
    have hst1 : (init_transcriber ctor key st).1 =
        { st with events := st.events ++ [key] } := by rw [h1]
    have hlook1 : regLookup (init_transcriber ctor key st).1.table key = none := by
      rw [hst1]; exact hfresh
    have hatt1 : attemptsOf (init_transcriber ctor key st).1 key =
        attemptsOf st key + 1 := by
      rw [hst1]; exact attemptsOf_append_self st key
    refine ⟨h1, hlook1, ?_, ?_⟩
    · rcases hc : ctor (attemptsOf st key + 1) with e2 | v2
      · have := @init_transcriber_fresh_err ctor key
          ((init_transcriber ctor key st).1) e2 hlook1 (by rw [hatt1]; exact hc)
        rw [this]
        simp only [attemptsOf, List.count_append] at hatt1 ⊢
        simp [hst1, List.count_append]
      · have := @init_transcriber_fresh_ok ctor key
          ((init_transcriber ctor key st).1) v2 hlook1 (by rw [hatt1]; exact hc)
        rw [this]
        simp [attemptsOf, hst1, List.count_append]
    · intro v2 hv2
      have := @init_transcriber_fresh_ok ctor key
        ((init_transcriber ctor key st).1) v2 hlook1 (by rw [hatt1]; exact hv2)
      rw [this]

/-- Witness for `provider_singleton`: a concrete always-succeeding
constructor requested four times caches one instance, and a concrete
first-failure constructor leaves the table empty and succeeds on retry. -/
theorem provider_singleton_witness :
    (requestN (fun _ => .ok ⟨5⟩) .bcut regState0 3 =
      ({ table := regUpdate regState0.table .bcut (some ⟨5⟩),
         events := [.bcut], logs := [] }, .ok ⟨5⟩))
    ∧ (init_transcriber (fun n => if n = 0 then .error (.exception "load failed")
          else .ok ⟨9⟩) .groq regState0).2 = .error (.exception "load failed")
    ∧ regLookup (init_transcriber (fun n => if n = 0 then
          .error (.exception "load failed") else .ok ⟨9⟩) .groq
          regState0).1.table .groq = none
    ∧ (init_transcriber (fun n => if n = 0 then .error (.exception "load failed")
          else .ok ⟨9⟩) .groq
        (init_transcriber (fun n => if n = 0 then .error (.exception "load failed")
          else .ok ⟨9⟩) .groq regState0).1).2 = .ok ⟨9⟩ := by
  have h1 := (provider_singleton (fun _ => .ok ⟨5⟩) .bcut regState0 rfl).1 ⟨5⟩ rfl 3
  have h2 := (provider_singleton
      (fun n => if n = 0 then .error (.exception "load failed") else .ok ⟨9⟩)
      .groq regState0 rfl).2 (.exception "load failed") rfl
  exact ⟨h1, by rw [h2.1], h2.2.1, h2.2.2.2 ⟨9⟩ rfl⟩

/-- **C4**: an unrecognized string token, and an MLX request on a platform
without MLX, both fall back to the default `fast-whisper` request with the
substitution logged; no error arises from the token or the platform
itself — in particular, with a constructed default instance the request
returns it. -/
theorem get_transcriber_fallback (env : RegEnv) (st : RegState)
    (token : String) (htok : parseTranscriberType token = none)
    (hmlx : env.mlxAvailable = false) :
    (get_transcriber env token st =
      get_whisper_transcriber env
        { st with logs := st.logs ++ [unknownTypeMsg token] })
    ∧ unknownTypeMsg token ∈ (get_transcriber env token st).1.logs
    ∧ (get_transcriber env "mlx-whisper" st =
      get_whisper_transcriber env
        { st with logs := st.logs ++ [mlxFallbackMsg] })
    ∧ mlxFallbackMsg ∈ (get_transcriber env "mlx-whisper" st).1.logs
    ∧ ∀ w, regLookup st.table .fast_whisper = some w →
        (get_transcriber env token st).2 = .ok w ∧
        (get_transcriber env "mlx-whisper" st).2 = .ok w := by
  have hp : parseTranscriberType "mlx-whisper" = some .mlx_whisper := rfl
  have h1 : get_transcriber env token st =
      get_whisper_transcriber env
        { st with logs := st.logs ++ [unknownTypeMsg token] } := by
    simp [get_transcriber, htok]
  have h3 : get_transcriber env "mlx-whisper" st =
      get_whisper_transcriber env
        { st with logs := st.logs ++ [mlxFallbackMsg] } := by
    simp [get_transcriber, hp, hmlx]
  refine ⟨h1, ?_, h3, ?_, ?_⟩
  · rw [h1]
    unfold get_whisper_transcriber
    rw [init_transcriber_logs]
    simp
  · rw [h3]
    unfold get_whisper_transcriber
    rw [init_transcriber_logs]
    simp
  · intro w hw
    have hc : ∀ st' : RegState, st'.table = st.table →
        (get_whisper_transcriber env st').2 = .ok w := by
      intro st' hst'
      unfold get_whisper_transcriber
      rw [@init_transcriber_cached env.whisperCtor .fast_whisper st' w
        (by rw [hst']; exact hw)]
    exact ⟨by rw [h1]; exact hc _ rfl, by rw [h3]; exact hc _ rfl⟩

/-- Witness for `get_transcriber_fallback`: the concrete token
`"deepgram"` and an MLX request on a non-Apple platform both return the
already-constructed whisper instance and log the substitution. -/
theorem get_transcriber_fallback_witness :
    ((get_transcriber
        { mlxAvailable := false, whisperCtor := fun _ => .ok ⟨1⟩,
          mlxCtor := fun _ => .ok ⟨2⟩, bcutCtor := fun _ => .ok ⟨3⟩,
          kuaishouCtor := fun _ => .ok ⟨4⟩, groqCtor := fun _ => .ok ⟨5⟩ }
        "deepgram"
        { table := regUpdate transcribersInit .fast_whisper (some ⟨1⟩),
          events := [.fast_whisper], logs := [] }).2 = .ok ⟨1⟩)
    ∧ unknownTypeMsg "deepgram" ∈
      (get_transcriber
        { mlxAvailable := false, whisperCtor := fun _ => .ok ⟨1⟩,
          mlxCtor := fun _ => .ok ⟨2⟩, bcutCtor := fun _ => .ok ⟨3⟩,
          kuaishouCtor := fun _ => .ok ⟨4⟩, groqCtor := fun _ => .ok ⟨5⟩ }
        "deepgram"
        { table := regUpdate transcribersInit .fast_whisper (some ⟨1⟩),
          events := [.fast_whisper], logs := [] }).1.logs
    ∧ ((get_transcriber
        { mlxAvailable := false, whisperCtor := fun _ => .ok ⟨1⟩,
          mlxCtor := fun _ => .ok ⟨2⟩, bcutCtor := fun _ => .ok ⟨3⟩,
          kuaishouCtor := fun _ => .ok ⟨4⟩, groqCtor := fun _ => .ok ⟨5⟩ }
        "mlx-whisper"
        { table := regUpdate transcribersInit .fast_whisper (some ⟨1⟩),
          events := [.fast_whisper], logs := [] }).2 = .ok ⟨1⟩) := by
  have h := get_transcriber_fallback
    { mlxAvailable := false, whisperCtor := fun _ => .ok ⟨1⟩,
      mlxCtor := fun _ => .ok ⟨2⟩, bcutCtor := fun _ => .ok ⟨3⟩,
      kuaishouCtor := fun _ => .ok ⟨4⟩, groqCtor := fun _ => .ok ⟨5⟩ }
    { table := regUpdate transcribersInit .fast_whisper (some ⟨1⟩),
      events := [.fast_whisper], logs := [] }
    "deepgram" rfl rfl
  have hw := h.2.2.2.2 ⟨1⟩ rfl
  exact ⟨hw.1, h.2.1, hw.2⟩

/-- **C9 counterexample**: at the concrete unsupported configured type
`"not-a-type"` the request fails with a bare `Exception`, and the direct
MLX request on a platform without MLX fails with an `ImportError`; in
neither case is the failure the `ConfigurationError` the claim names. -/
theorem config_error_claim_false :
    (noteGenerator_init_transcriber regEnvNoMlx "not-a-type" regState0).2 =
      .error (.exception "不支持的转写器：not-a-type")
    ∧ isConfigurationErrorResult
        (noteGenerator_init_transcriber regEnvNoMlx "not-a-type" regState0).2 = false
    ∧ (get_mlx_whisper_transcriber regEnvNoMlx regState0).2 =
        .error (.importError "MLX Whisper 不可用")
    ∧ isConfigurationErrorResult
        (get_mlx_whisper_transcriber regEnvNoMlx regState0).2 = false :=
  ⟨rfl, rfl, rfl, rfl⟩

/-- **C9 (amended)**: a directly requested type that is not in the
instance table fails — with a bare `Exception` for a configured
transcriber type outside the table, and with an `ImportError` for the MLX
provider when the platform lacks it (not with a `ConfigurationError`,
which the source never raises). -/
theorem direct_unsupported_raises (env : RegEnv) (st : RegState)
    (token : String) (htok : parseTranscriberType token = none) :
    noteGenerator_init_transcriber env token st =
      (st, .error (.exception ("不支持的转写器：" ++ token)))
    ∧ (env.mlxAvailable = false →
        get_mlx_whisper_transcriber env st =
          ({ st with logs := st.logs ++ [mlxUnavailableMsg] },
           .error (.importError "MLX Whisper 不可用"))) := by
  constructor
  · simp [noteGenerator_init_transcriber, htok]
  · intro hm
    simp [get_mlx_whisper_transcriber, hm]

/-- Witness for `direct_unsupported_raises` at the concrete token
`"not-a-type"` on a platform without MLX. -/
theorem direct_unsupported_raises_witness :
    noteGenerator_init_transcriber regEnvNoMlx "not-a-type" regState0 =
      (regState0, .error (.exception "不支持的转写器：not-a-type"))
    ∧ get_mlx_whisper_transcriber regEnvNoMlx regState0 =
        ({ regState0 with logs := regState0.logs ++ [mlxUnavailableMsg] },
         .error (.importError "MLX Whisper 不可用")) := by
  have h := direct_unsupported_raises regEnvNoMlx regState0 "not-a-type" rfl
  exact ⟨h.1, h.2 rfl⟩

/-! ## Stage-cache lemmas -/

theorem fsLookup_writeText_self (st : GenState) (p : String) (c : FsContent) :
    fsLookup (writeText st p c).fs p = some c := by
  simp [writeText, fsLookup]

theorem download_audio_part_ok_lookup {env : Env} {url : String}
    {q : DownloadQuality} {acf : String} {op : Option String} {nv : Bool}
    {st st1 : GenState} {audio : AudioDownloadResult}
    (h : download_audio_part env url q acf op nv st = (st1, .ok audio)) :
    fsLookup st1.fs acf = some (.audioJson audio) := by
  unfold download_audio_part at h
  split at h
  · simp at h
  · rw [Prod.mk.injEq] at h
    obtain ⟨hst, ha⟩ := h
    subst hst
    injection ha with ha
    subst ha
    exact fsLookup_writeText_self _ _ _

theorem download_audio_part_ok_fsOps {env : Env} {url : String}
    {q : DownloadQuality} {acf : String} {op : Option String} {nv : Bool}
    {st st1 : GenState} {audio : AudioDownloadResult}
    (h : download_audio_part env url q acf op nv st = (st1, .ok audio)) :
    st1.calls.fsOps = st.calls.fsOps ++ [.writeFile acf (.audioJson audio)] := by
  unfold download_audio_part at h
  split at h
  · simp at h
  · rw [Prod.mk.injEq] at h
    obtain ⟨hst, ha⟩ := h
    subst hst
    injection ha with ha
    subst ha
    simp [writeText]

theorem download_media_hit {env : Env} {url : String} {q : DownloadQuality}
    {acf : String} {op : Option String} {scr vu : Bool} {vi : Int}
    {gs : List Int} {st : GenState} {a : AudioDownloadResult}
    (h : fsLookup st.fs acf = some (.audioJson a)) :
    download_media env url q acf op scr vu vi gs st = (st, .ok a) := by
  unfold download_media
  rw [h]

theorem download_media_ok_lookup {env : Env} {url : String} {q : DownloadQuality}
    {acf : String} {op : Option String} {scr vu : Bool} {vi : Int}
    {gs : List Int} {st st1 : GenState} {audio : AudioDownloadResult}
    (h : download_media env url q acf op scr vu vi gs st = (st1, .ok audio)) :
    fsLookup st1.fs acf = some (.audioJson audio) := by
  unfold download_media at h
  repeat' split at h
  all_goals first
    | (exact download_audio_part_ok_lookup h)
    | simp_all [fsLookup]

theorem transcribe_audio_hit {env : Env} {af tcf : String} {st : GenState}
    {t : TranscriptResult}
    (h : fsLookup st.fs tcf = some (.transcriptJson t)) :
    transcribe_audio env af tcf st = (st, .ok t) := by
  unfold transcribe_audio
  rw [h]

theorem transcribe_audio_ok_lookup {env : Env} {af tcf : String}
    {st st1 : GenState} {t : TranscriptResult}
    (h : transcribe_audio env af tcf st = (st1, .ok t)) :
    fsLookup st1.fs tcf = some (.transcriptJson t) := by
  unfold transcribe_audio at h
  split at h
  · simp_all [fsLookup]
  · simp at h
  · split at h
    · simp at h
    · rw [Prod.mk.injEq] at h
      obtain ⟨hst, ht⟩ := h
      subst hst
      injection ht with ht
      subst ht
      exact fsLookup_writeText_self _ _ _

theorem summarize_text_hit {env : Env} {am : AudioDownloadResult}
    {tr : TranscriptResult} {mcf : String} {l scr : Bool}
    {fm : List String} {sty ex : Option String} {urls : List String}
    {st : GenState} {s : String}
    (h : fsLookup st.fs mcf = some (.text s)) :
    summarize_text env am tr mcf l scr fm sty ex urls st = (st, .ok s) := by
  unfold summarize_text
  rw [h]

theorem summarize_text_ok_lookup {env : Env} {am : AudioDownloadResult}
    {tr : TranscriptResult} {mcf : String} {l scr : Bool}
    {fm : List String} {sty ex : Option String} {urls : List String}
    {st st1 : GenState} {s : String}
    (h : summarize_text env am tr mcf l scr fm sty ex urls st = (st1, .ok s)) :
    fsLookup st1.fs mcf = some (.text s) := by
  unfold summarize_text at h
  split at h
  · simp_all [fsLookup]
  · simp at h
  · split at h
    · simp at h
    · rw [Prod.mk.injEq] at h
      obtain ⟨hst, hs⟩ := h
      subst hst
      injection hs with hs
      subst hs
      exact fsLookup_writeText_self _ _ _

/-- **C1**: for each of the three cached stages, an existing well-formed
cache artifact makes the stage return the decoded artifact with the state
(and hence every capability-invocation counter) unchanged; a run that
returns an artifact leaves that artifact in the cache, so an immediately
repeated run is a pure cache hit returning the same artifact with no
further state change; and a single run invokes its external capability at
most once.  Together: two runs over an unmodified cache directory invoke
each capability at most once and yield the same artifacts. -/
theorem stage_cache_authoritative (env : Env) :
    (∀ url q acf op scr vu vi gs st a,
      fsLookup st.fs acf = some (.audioJson a) →
      download_media env url q acf op scr vu vi gs st = (st, .ok a))
    ∧ (∀ url q acf op scr vu vi gs st st1 audio,
      download_media env url q acf op scr vu vi gs st = (st1, .ok audio) →
      download_media env url q acf op scr vu vi gs st1 = (st1, .ok audio))
    ∧ (∀ url q acf op scr vu vi gs st,
      (download_media env url q acf op scr vu vi gs st).1.calls.downloads ≤
        st.calls.downloads + 1 ∧
      (download_media env url q acf op scr vu vi gs st).1.calls.videoDownloads ≤
        st.calls.videoDownloads + 1)
    ∧ (∀ af tcf st t,
      fsLookup st.fs tcf = some (.transcriptJson t) →
      transcribe_audio env af tcf st = (st, .ok t))
    ∧ (∀ af tcf st st1 t,
      transcribe_audio env af tcf st = (st1, .ok t) →
      transcribe_audio env af tcf st1 = (st1, .ok t))
    ∧ (∀ af tcf st,
      (transcribe_audio env af tcf st).1.calls.transcriptions ≤
        st.calls.transcriptions + 1)
    ∧ (∀ am tr mcf l scr fm sty ex urls st s,
      fsLookup st.fs mcf = some (.text s) →
      summarize_text env am tr mcf l scr fm sty ex urls st = (st, .ok s))
    ∧ (∀ am tr mcf l scr fm sty ex urls st st1 s,
      summarize_text env am tr mcf l scr fm sty ex urls st = (st1, .ok s) →
      summarize_text env am tr mcf l scr fm sty ex urls st1 = (st1, .ok s))
    ∧ (∀ am tr mcf l scr fm sty ex urls st,
      (summarize_text env am tr mcf l scr fm sty ex urls st).1.calls.summaries ≤
        st.calls.summaries + 1) := by
  refine ⟨?_, ?_, ?_, ?_, ?_, ?_, ?_, ?_, ?_⟩
  · intro url q acf op scr vu vi gs st a h
    exact download_media_hit h
  · intro url q acf op scr vu vi gs st st1 audio h
    exact download_media_hit (download_media_ok_lookup h)
  · intro url q acf op scr vu vi gs st
    unfold download_media download_audio_part
    repeat' split
    all_goals simp [writeText]
  · intro af tcf st t h
    exact transcribe_audio_hit h
  · intro af tcf st st1 t h
    exact transcribe_audio_hit (transcribe_audio_ok_lookup h)
  · intro af tcf st
    unfold transcribe_audio
    repeat' split
    all_goals simp [writeText]
  · intro am tr mcf l scr fm sty ex urls st s h
    exact summarize_text_hit h
  · intro am tr mcf l scr fm sty ex urls st st1 s h
    exact summarize_text_hit (summarize_text_ok_lookup h)
  · intro am tr mcf l scr fm sty ex urls st
    unfold summarize_text
    repeat' split
    all_goals simp [writeText]

/-- Witness for `stage_cache_authoritative`: each stage re-run on the
state left by its first run over an empty filesystem is a pure cache hit
returning the same artifact. -/
theorem stage_cache_authoritative_witness :
    download_media envW "u" .medium "t1_audio.json" none false false 0 []
        (download_media envW "u" .medium "t1_audio.json" none false false 0 []
          stEmpty).1 =
      ((download_media envW "u" .medium "t1_audio.json" none false false 0 []
          stEmpty).1, .ok audioW)
    ∧ transcribe_audio envW "/tmp/a.mp3" "t1_transcript.json"
        (transcribe_audio envW "/tmp/a.mp3" "t1_transcript.json" stEmpty).1 =
      ((transcribe_audio envW "/tmp/a.mp3" "t1_transcript.json" stEmpty).1,
        .ok transcriptW)
    ∧ summarize_text envW audioW transcriptW "t1_markdown.md" false false []
        none none []
        (summarize_text envW audioW transcriptW "t1_markdown.md" false false []
          none none [] stEmpty).1 =
      ((summarize_text envW audioW transcriptW "t1_markdown.md" false false []
          none none [] stEmpty).1, .ok "md *Screenshot-00:10") := by
  have h := stage_cache_authoritative envW
  exact ⟨h.2.1 _ _ _ _ _ _ _ _ stEmpty _ _ rfl,
         h.2.2.2.2.1 _ _ stEmpty _ _ rfl,
         h.2.2.2.2.2.2.2.1 _ _ _ _ _ _ _ _ _ stEmpty _ _ rfl⟩

/-- **C5 counterexample**: at a concrete cache-miss run of each stage, the
cache path receives a direct in-place write and the
write-temp-then-atomic-rename discipline does not hold at that path. -/
theorem cache_write_atomicity_false :
    writesDirectlyTo
      (download_media envW "u" .medium "note_results/t1_audio.json" none false
        false 0 [] stEmpty).1.calls.fsOps "note_results/t1_audio.json" = true
    ∧ tempThenRenameAt
      (download_media envW "u" .medium "note_results/t1_audio.json" none false
        false 0 [] stEmpty).1.calls.fsOps "note_results/t1_audio.json" = false
    ∧ writesDirectlyTo
      (transcribe_audio envW "/tmp/a.mp3" "note_results/t1_transcript.json"
        stEmpty).1.calls.fsOps "note_results/t1_transcript.json" = true
    ∧ tempThenRenameAt
      (transcribe_audio envW "/tmp/a.mp3" "note_results/t1_transcript.json"
        stEmpty).1.calls.fsOps "note_results/t1_transcript.json" = false
    ∧ writesDirectlyTo
      (summarize_text envW audioW transcriptW "note_results/t1_markdown.md"
        false false [] none none [] stEmpty).1.calls.fsOps
      "note_results/t1_markdown.md" = true
    ∧ tempThenRenameAt
      (summarize_text envW audioW transcriptW "note_results/t1_markdown.md"
        false false [] none none [] stEmpty).1.calls.fsOps
      "note_results/t1_markdown.md" = false :=
  ⟨rfl, rfl, rfl, rfl, rfl, rfl⟩

/-- **C5 (amended)**: every stage cache store on a miss is a single
direct `write_text` to the final cache path — no temporary file and no
rename are involved, so the temp-then-rename discipline is absent and a
crashed partial write would be observable at the cache path. -/
theorem cache_write_direct (env : Env) :
    (∀ url q acf op scr vu vi gs st st1 audio,
      download_media env url q acf op scr vu vi gs st = (st1, .ok audio) →
      fsLookup st.fs acf = none →
      st1.calls.fsOps = st.calls.fsOps ++ [.writeFile acf (.audioJson audio)])
    ∧ (∀ af tcf st st1 t,
      transcribe_audio env af tcf st = (st1, .ok t) →
      fsLookup st.fs tcf = none →
      st1.calls.fsOps = st.calls.fsOps ++ [.writeFile tcf (.transcriptJson t)])
    ∧ (∀ am tr mcf l scr fm sty ex urls st st1 s,
      summarize_text env am tr mcf l scr fm sty ex urls st = (st1, .ok s) →
      fsLookup st.fs mcf = none →
      st1.calls.fsOps = st.calls.fsOps ++ [.writeFile mcf (.text s)]) := by
  refine ⟨?_, ?_, ?_⟩
  · intro url q acf op scr vu vi gs st st1 audio h hmiss
    unfold download_media at h
    rw [hmiss] at h
    split at h
    · simp_all
    · simp_all
    · split at h
      · split at h
        · simp at h
        · split at h
          · exact (download_audio_part_ok_fsOps h).trans rfl
          · exact (download_audio_part_ok_fsOps h).trans rfl
      · exact download_audio_part_ok_fsOps h
  · intro af tcf st st1 t h hmiss
    unfold transcribe_audio at h
    rw [hmiss] at h
    split at h
    · simp_all
    · simp_all
    · split at h
      · simp at h
      · rw [Prod.mk.injEq] at h
        obtain ⟨hst, ht⟩ := h
        subst hst
        injection ht with ht
        subst ht
        simp [writeText]
  · intro am tr mcf l scr fm sty ex urls st st1 s h hmiss
    unfold summarize_text at h
    rw [hmiss] at h
    split at h
    · simp_all
    · simp_all
    · split at h
      · simp at h
      · rw [Prod.mk.injEq] at h
        obtain ⟨hst, hs⟩ := h
        subst hst
        injection hs with hs
        subst hs
        simp [writeText]

/-- Witness for `cache_write_direct` at concrete cache-miss runs. -/
theorem cache_write_direct_witness :
    (download_media envW "u" .medium "t2_audio.json" none false false 0 []
      stEmpty).1.calls.fsOps =
        stEmpty.calls.fsOps ++ [.writeFile "t2_audio.json" (.audioJson audioW)]
    ∧ (transcribe_audio envW "/tmp/a.mp3" "t2_transcript.json"
        stEmpty).1.calls.fsOps =
        stEmpty.calls.fsOps ++
          [.writeFile "t2_transcript.json" (.transcriptJson transcriptW)]
    ∧ (summarize_text envW audioW transcriptW "t2_markdown.md" false false []
        none none [] stEmpty).1.calls.fsOps =
        stEmpty.calls.fsOps ++
          [.writeFile "t2_markdown.md" (.text "md *Screenshot-00:10")] := by
  have h := cache_write_direct envW
  exact ⟨h.1 "u" .medium "t2_audio.json" none false false 0 [] stEmpty _ _
           (by rfl) rfl,
         h.2.1 "/tmp/a.mp3" "t2_transcript.json" stEmpty _ _ (by rfl) rfl,
         h.2.2 audioW transcriptW "t2_markdown.md" false false [] none none []
           stEmpty _ _ (by rfl) rfl⟩

/-! ## State-invariance lemmas for the pipeline stages -/

theorem insert_screenshots_foldl_state (env : Env) (cfg : ModeConfig)
    (vp : String) :
    ∀ (l : List (Nat × String × Nat)) (acc : GenState × String),
    (l.foldl (insert_screenshots_step env cfg vp) acc).1 =
      { acc.1 with calls := { acc.1.calls with
          frames := acc.1.calls.frames ++ l.map (fun p => (p.2.2, p.1)) } } := by
  intro l
  induction l with
  | nil =>
    intro acc
    simp
  | cons hd tl ih =>
    intro acc
    rw [List.foldl_cons, ih]
    simp [insert_screenshots_step]

theorem insert_screenshots_state (env : Env) (cfg : ModeConfig)
    (md vp : String) (st : GenState) :
    (insert_screenshots env cfg md vp st).1 =
      { st with calls := { st.calls with
          frames := st.calls.frames ++
            (extract_screenshot_timestamps md).enum.map
              (fun p => (p.2.2, p.1)) } } := by
  unfold insert_screenshots
  exact insert_screenshots_foldl_state env cfg vp _ (st, md)

theorem post_process_none (env : Env) (cfg : ModeConfig) (md : String)
    (fmt : List String) (am : AudioDownloadResult) (plat : String)
    (st : GenState) (hcli : cfg.isCliMode = false) :
    post_process_markdown env cfg md none fmt am plat st =
      if fmt.contains "link" then
        ({ st with calls := { st.calls with
             linkRewrites := st.calls.linkRewrites + 1 } },
         env.replace_content_markers md am.video_id plat)
      else (st, md) := by
  simp [post_process_markdown, hcli]

theorem post_process_state_inv (env : Env) (cfg : ModeConfig) (md : String)
    (vp : Option String) (fmt : List String) (am : AudioDownloadResult)
    (plat : String) (st : GenState) :
    (post_process_markdown env cfg md vp fmt am plat st).1.video_path = st.video_path
    ∧ (post_process_markdown env cfg md vp fmt am plat st).1.calls.downloads =
        st.calls.downloads
    ∧ (post_process_markdown env cfg md vp fmt am plat st).1.calls.videoDownloads =
        st.calls.videoDownloads
    ∧ (post_process_markdown env cfg md vp fmt am plat st).1.calls.transcriptions =
        st.calls.transcriptions
    ∧ (post_process_markdown env cfg md vp fmt am plat st).1.calls.summaries =
        st.calls.summaries
    ∧ (post_process_markdown env cfg md vp fmt am plat st).1.calls.metadataSaves =
        st.calls.metadataSaves := by
  unfold post_process_markdown
  repeat' split
  all_goals simp [insert_screenshots_state]

theorem download_media_state_inv (env : Env) (url : String)
    (q : DownloadQuality) (acf : String) (op : Option String) (scr vu : Bool)
    (vi : Int) (gs : List Int) (st : GenState) :
    (download_media env url q acf op scr vu vi gs st).1.calls.frames =
      st.calls.frames
    ∧ (download_media env url q acf op scr vu vi gs st).1.calls.linkRewrites =
        st.calls.linkRewrites
    ∧ (download_media env url q acf op scr vu vi gs st).1.calls.summaries =
        st.calls.summaries
    ∧ (download_media env url q acf op scr vu vi gs st).1.calls.metadataSaves =
        st.calls.metadataSaves
    ∧ (download_media env url q acf op scr vu vi gs st).1.calls.transcriptions =
        st.calls.transcriptions := by
  unfold download_media download_audio_part
  repeat' split
  all_goals simp [writeText]

theorem download_media_no_video_inv (env : Env) (url : String)
    (q : DownloadQuality) (acf : String) (op : Option String) (vi : Int)
    (gs : List Int) (st : GenState) :
    (download_media env url q acf op false false vi gs st).1.calls.videoDownloads =
      st.calls.videoDownloads
    ∧ (download_media env url q acf op false false vi gs st).1.video_path =
        st.video_path := by
  unfold download_media download_audio_part
  repeat' split
  all_goals simp_all [writeText]

theorem transcribe_audio_state_inv (env : Env) (af tcf : String)
    (st : GenState) :
    (transcribe_audio env af tcf st).1.calls.frames = st.calls.frames
    ∧ (transcribe_audio env af tcf st).1.calls.linkRewrites = st.calls.linkRewrites
    ∧ (transcribe_audio env af tcf st).1.calls.summaries = st.calls.summaries
    ∧ (transcribe_audio env af tcf st).1.calls.metadataSaves = st.calls.metadataSaves
    ∧ (transcribe_audio env af tcf st).1.calls.downloads = st.calls.downloads
    ∧ (transcribe_audio env af tcf st).1.calls.videoDownloads = st.calls.videoDownloads
    ∧ (transcribe_audio env af tcf st).1.video_path = st.video_path
    ∧ (transcribe_audio env af tcf st).1.video_img_urls = st.video_img_urls := by
  unfold transcribe_audio
  repeat' split
  all_goals simp [writeText]

theorem summarize_text_state_inv (env : Env) (am : AudioDownloadResult)
    (tr : TranscriptResult) (mcf : String) (l scr : Bool) (fm : List String)
    (sty ex : Option String) (urls : List String) (st : GenState) :
    (summarize_text env am tr mcf l scr fm sty ex urls st).1.calls.frames =
      st.calls.frames
    ∧ (summarize_text env am tr mcf l scr fm sty ex urls st).1.calls.linkRewrites =
        st.calls.linkRewrites
    ∧ (summarize_text env am tr mcf l scr fm sty ex urls st).1.calls.downloads =
        st.calls.downloads
    ∧ (summarize_text env am tr mcf l scr fm sty ex urls st).1.calls.videoDownloads =
        st.calls.videoDownloads
    ∧ (summarize_text env am tr mcf l scr fm sty ex urls st).1.calls.transcriptions =
        st.calls.transcriptions
    ∧ (summarize_text env am tr mcf l scr fm sty ex urls st).1.calls.metadataSaves =
        st.calls.metadataSaves
    ∧ (summarize_text env am tr mcf l scr fm sty ex urls st).1.video_path =
        st.video_path := by
  unfold summarize_text
  repeat' split
  all_goals simp [writeText]

theorem generate_transcribe_stage_inv (env : Env) (b : Bool) (af tcf : String)
    (st : GenState) :
    (generate_transcribe_stage env b af tcf st).1.calls.frames = st.calls.frames
    ∧ (generate_transcribe_stage env b af tcf st).1.calls.linkRewrites =
        st.calls.linkRewrites
    ∧ (generate_transcribe_stage env b af tcf st).1.calls.summaries =
        st.calls.summaries
    ∧ (generate_transcribe_stage env b af tcf st).1.calls.metadataSaves =
        st.calls.metadataSaves
    ∧ (generate_transcribe_stage env b af tcf st).1.calls.videoDownloads =
        st.calls.videoDownloads
    ∧ (generate_transcribe_stage env b af tcf st).1.video_path =
        st.video_path := by
  have hi := transcribe_audio_state_inv env af tcf st
  unfold generate_transcribe_stage
  split
  · split <;> simp_all
  · simp

theorem generate_summary_stage_noGpt (env : Env) (a : GenerateArgs)
    (am : AudioDownloadResult) (tr : Option TranscriptResult) (mcf : String)
    (st : GenState) :
    generate_summary_stage env a am tr false mcf st = (st, .ok "") := by
  unfold generate_summary_stage
  cases tr <;> rfl

theorem generate_summary_stage_inv (env : Env) (a : GenerateArgs)
    (am : AudioDownloadResult) (tr : Option TranscriptResult) (hg : Bool)
    (mcf : String) (st : GenState) :
    (generate_summary_stage env a am tr hg mcf st).1.calls.frames =
      st.calls.frames
    ∧ (generate_summary_stage env a am tr hg mcf st).1.calls.linkRewrites =
        st.calls.linkRewrites
    ∧ (generate_summary_stage env a am tr hg mcf st).1.calls.videoDownloads =
        st.calls.videoDownloads
    ∧ (generate_summary_stage env a am tr hg mcf st).1.calls.metadataSaves =
        st.calls.metadataSaves
    ∧ (generate_summary_stage env a am tr hg mcf st).1.video_path =
        st.video_path := by
  unfold generate_summary_stage
  split
  · rename_i t
    have hi := summarize_text_state_inv env am t mcf a.link a.screenshot
      a._format a.style a.extras st.video_img_urls st
    exact ⟨hi.1, hi.2.1, hi.2.2.2.1, hi.2.2.2.2.2.1, hi.2.2.2.2.2.2⟩
  · simp

theorem generateRun_gated (env : Env) (cfg : ModeConfig) (b : GenerateArgs)
    (st : GenState) (hcli : cfg.isCliMode = true) (hsum : b.summary = false)
    (hscr : b.screenshot = false) (hvu : b.video_understanding = false) :
    ∀ st1 r, generateRun env cfg b st = (st1, .ok r) →
      r.markdown = ""
      ∧ st1.calls.frames = st.calls.frames
      ∧ st1.calls.linkRewrites = st.calls.linkRewrites
      ∧ st1.calls.summaries = st.calls.summaries
      ∧ st1.calls.videoDownloads = st.calls.videoDownloads
      ∧ st1.calls.metadataSaves = st.calls.metadataSaves := by
  intro st1 r h
  have hg : generate_gpt_step env b = .ok false := by
    simp [generate_gpt_step, gptRequested, hsum]
  unfold generateRun at h
  rw [hscr, hvu] at h
  split at h
  · simp at h
  · split at h
    · rename_i e heqg
      rw [hg] at heqg
      simp at heqg
    · rename_i hasGpt heqg
      rw [hg] at heqg
      injection heqg with heqg
      subst heqg
      split at h
      · simp at h
      · rename_i st1' am heq1
        split at h
        · simp at h
        · rename_i st2 tr heq2
          rw [generate_summary_stage_noGpt] at h
          split at h
          · rename_i st3 e heq3
            rw [Prod.mk.injEq] at heq3
            simp at heq3
          rename_i st3 md0 heq3
          rw [Prod.mk.injEq] at heq3
          obtain ⟨hst3, hmd⟩ := heq3
          injection hmd with hmd
          subst hst3
          subst hmd
          rw [show generate_post_stage env cfg b am "" st2 = (st2, "") from by
                simp [generate_post_stage, hcli]] at h
          rw [show generate_finalize cfg st2 = st2 from by
                simp [generate_finalize, hcli]] at h
          rw [Prod.mk.injEq] at h
          obtain ⟨hst, hr⟩ := h
          injection hr with hr
          subst hst
          subst hr
          have hi1 := download_media_state_inv env b.video_url b.quality
            (cachePath cfg b.task_id "_audio.json") b.output_path false false
            b.video_interval b.grid_size st
          have hv1 := download_media_no_video_inv env b.video_url b.quality
            (cachePath cfg b.task_id "_audio.json") b.output_path
            b.video_interval b.grid_size st
          rw [heq1] at hi1 hv1
          have hi2 := generate_transcribe_stage_inv env b.transcribe
            am.file_path (cachePath cfg b.task_id "_transcript.json") st1'
          rw [heq2] at hi2
          refine ⟨rfl, ?_, ?_, ?_, ?_, ?_⟩
          · rw [hi2.1, hi1.1]
          · rw [hi2.2.1, hi1.2.1]
          · rw [hi2.2.2.1, hi1.2.2.1]
          · rw [hi2.2.2.2.2.1, hv1.1]
          · rw [hi2.2.2.2.1, hi1.2.2.2.1]

/-- **C2**: with batch/CLI mode active, `generate` behaves identically to
a call with all visual/model flags already stripped (the override happens
before any stage runs), and every successful result has empty markdown
with no post-processing performed: no frame extraction, no link
rewriting, no summarization, no video download, and no metadata save. -/
theorem cli_mode_gating (env : Env) (cfg : ModeConfig) (a : GenerateArgs)
    (st : GenState) (hcli : cfg.isCliMode = true) :
    generateBody env cfg a st = generateBody env cfg (cliOverride a) st
    ∧ ∀ st1 r, generateBody env cfg a st = (st1, .ok r) →
        r.markdown = ""
        ∧ st1.calls.frames = st.calls.frames
        ∧ st1.calls.linkRewrites = st.calls.linkRewrites
        ∧ st1.calls.summaries = st.calls.summaries
        ∧ st1.calls.videoDownloads = st.calls.videoDownloads
        ∧ st1.calls.metadataSaves = st.calls.metadataSaves := by
  have hbody : ∀ c : GenerateArgs,
      generateBody env cfg c st = generateRun env cfg (cliOverride c) st := by
    intro c
    unfold generateBody
    rw [hcli]
    simp
  constructor
  · rw [hbody a, hbody (cliOverride a)]
    rfl
  · intro st1 r h
    rw [hbody a] at h
    exact generateRun_gated env cfg (cliOverride a) st hcli rfl rfl rfl st1 r h

/-- Witness for `cli_mode_gating`: a CLI-mode call asking for
screenshots, links, video understanding and a summary is gated to the
stripped call and returns empty markdown with no post-processing
counters moved. -/
theorem cli_mode_gating_witness :
    generateBody envW cliModeConfig aFlagsW stEmpty =
      generateBody envW cliModeConfig (cliOverride aFlagsW) stEmpty
    ∧ (NoteResult.markdown
        { markdown := "", transcript := some transcriptW, audio_meta := audioW } = ""
       ∧ (generateBody envW cliModeConfig aFlagsW stEmpty).1.calls.frames =
           stEmpty.calls.frames
       ∧ (generateBody envW cliModeConfig aFlagsW stEmpty).1.calls.linkRewrites =
           stEmpty.calls.linkRewrites
       ∧ (generateBody envW cliModeConfig aFlagsW stEmpty).1.calls.summaries =
           stEmpty.calls.summaries
       ∧ (generateBody envW cliModeConfig aFlagsW stEmpty).1.calls.videoDownloads =
           stEmpty.calls.videoDownloads
       ∧ (generateBody envW cliModeConfig aFlagsW stEmpty).1.calls.metadataSaves =
           stEmpty.calls.metadataSaves) := by
  have h := cli_mode_gating envW cliModeConfig aFlagsW stEmpty rfl
  exact ⟨h.1, h.2 _ _ (by rfl)⟩

/-- **C6 counterexample**: two service-mode runs whose download stage
fails with different typed exceptions produce the identical caller-visible
value `None`; the caller therefore receives a bare sentinel, not a typed
failure carrying the error — the error object exists only inside the
swallowed pipeline body. -/
theorem typed_failure_claim_false :
    (generate envFailA cfgService argsService stEmpty).2 = none
    ∧ (generate envFailB cfgService argsService stEmpty).2 = none
    ∧ (generate envFailA cfgService argsService stEmpty).2 =
        (generate envFailB cfgService argsService stEmpty).2
    ∧ (generateBody envFailA cfgService argsService stEmpty).2 =
        .error (.exception "disk full")
    ∧ (generateBody envFailB cfgService argsService stEmpty).2 =
        .error (.runtimeError "network timeout") :=
  ⟨rfl, rfl, rfl, rfl, rfl⟩

/-- **C6 (amended)**: a stage error aborts the remaining stages and no
partial result is produced — the caller of `generate` receives `None`,
which is distinct from every successful outcome (success always returns a
result object), but is an untyped sentinel: the raised error's type and
message are logged and swallowed, not delivered to the caller.  In
particular, a download-stage failure leaves the transcription and
summarization counters and the metadata finalizer untouched. -/
theorem pipeline_failure_signal (env : Env) (cfg : ModeConfig)
    (a : GenerateArgs) (st : GenState) :
    (∀ st1 e, generateBody env cfg a st = (st1, .error e) →
        generate env cfg a st = (st1, none))
    ∧ (∀ st1 r, generateBody env cfg a st = (st1, .ok r) →
        generate env cfg a st = (st1, some r))
    ∧ (∀ st1 e b, cfg.isCliMode = false →
        env.platform_supported a.platform = true →
        generate_gpt_step env a = .ok b →
        download_media env a.video_url a.quality
          (cachePath cfg a.task_id "_audio.json") a.output_path a.screenshot
          a.video_understanding a.video_interval a.grid_size st
          = (st1, .error e) →
        generateBody env cfg a st = (st1, .error e)
        ∧ st1.calls.transcriptions = st.calls.transcriptions
        ∧ st1.calls.summaries = st.calls.summaries
        ∧ st1.calls.metadataSaves = st.calls.metadataSaves) := by
  refine ⟨?_, ?_, ?_⟩
  · intro st1 e h
    simp [generate, h, Except.toOption]
  · intro st1 r h
    simp [generate, h, Except.toOption]
  · intro st1 e b hcli hplat hgpt hdl
    have hi := download_media_state_inv env a.video_url a.quality
      (cachePath cfg a.task_id "_audio.json") a.output_path a.screenshot
      a.video_understanding a.video_interval a.grid_size st
    rw [hdl] at hi
    refine ⟨?_, hi.2.2.2.2, hi.2.2.1, hi.2.2.2.1⟩
    unfold generateBody
    rw [hcli]
    unfold generateRun
    simp [hplat, hgpt, hdl]

/-- Witness for `pipeline_failure_signal` on a concrete failing
download. -/
theorem pipeline_failure_signal_witness :
    generate envFailA cfgService argsService stEmpty =
      ((generateBody envFailA cfgService argsService stEmpty).1, none)
    ∧ generateBody envFailA cfgService argsService stEmpty =
      ((generateBody envFailA cfgService argsService stEmpty).1,
        .error (.exception "disk full"))
    ∧ (generateBody envFailA cfgService argsService stEmpty).1.calls.transcriptions =
        stEmpty.calls.transcriptions
    ∧ (generateBody envFailA cfgService argsService stEmpty).1.calls.summaries =
        stEmpty.calls.summaries
    ∧ (generateBody envFailA cfgService argsService stEmpty).1.calls.metadataSaves =
        stEmpty.calls.metadataSaves := by
  have h := pipeline_failure_signal envFailA cfgService argsService stEmpty
  have h3 := h.2.2 ((generateBody envFailA cfgService argsService stEmpty).1)
    (.exception "disk full") false rfl rfl rfl (by rfl)
  exact ⟨h.1 _ _ (by rfl), h3.1, h3.2.1, h3.2.2.1, h3.2.2.2⟩

/-- **C10**: in service mode, when the download-stage cache artifact
already exists, a request with `screenshot=true` and `"screenshot"` among
the formats never downloads the video (the cache check precedes the
`need_video` branch), the stored video path stays unset, and no frame is
ever extracted; post-processing with an unset video path silently skips
screenshot insertion, returning the markdown with its markers intact
(only link rewriting, if requested, is applied). -/
theorem cached_download_skips_screenshots (env : Env) (cfg : ModeConfig)
    (a : GenerateArgs) (st : GenState) (am : AudioDownloadResult)
    (hcli : cfg.isCliMode = false) (hscr : a.screenshot = true)
    (hfmt : a._format.contains "screenshot" = true)
    (hcache : fsLookup st.fs (cachePath cfg a.task_id "_audio.json") =
      some (.audioJson am))
    (hvp : st.video_path = none) :
    (∀ st1 res, generateBody env cfg a st = (st1, res) →
        st1.calls.videoDownloads = st.calls.videoDownloads
        ∧ st1.calls.frames = st.calls.frames
        ∧ st1.video_path = none)
    ∧ (∀ md plat st',
        post_process_markdown env cfg md none a._format am plat st' =
          if a._format.contains "link" then
            ({ st' with calls := { st'.calls with
                 linkRewrites := st'.calls.linkRewrites + 1 } },
             env.replace_content_markers md am.video_id plat)
          else (st', md)) := by
  constructor
  · intro st1 res h
    have hb : generateBody env cfg a st = generateRun env cfg a st := by
      unfold generateBody
      rw [hcli]
      simp
    rw [hb] at h
    unfold generateRun at h
    split at h
    · rw [Prod.mk.injEq] at h
      obtain ⟨hst, -⟩ := h
      subst hst
      exact ⟨rfl, rfl, hvp⟩
    · split at h
      · rw [Prod.mk.injEq] at h
        obtain ⟨hst, -⟩ := h
        subst hst
        exact ⟨rfl, rfl, hvp⟩
      · rename_i hasGpt heqg
        rw [download_media_hit hcache] at h
        split at h
        · rename_i st1' e heqd
          rw [Prod.mk.injEq] at heqd
          simp at heqd
        rename_i st1' am' heqd
        rw [Prod.mk.injEq] at heqd
        obtain ⟨hst', ham⟩ := heqd
        injection ham with ham
        subst hst'
        subst ham
        have c2 := generate_transcribe_stage_inv env a.transcribe am.file_path
          (cachePath cfg a.task_id "_transcript.json") st
        split at h
        · rename_i st2 e heq2
          rw [heq2] at c2
          rw [Prod.mk.injEq] at h
          obtain ⟨hst, -⟩ := h
          subst hst
          exact ⟨c2.2.2.2.2.1, c2.1, c2.2.2.2.2.2.trans hvp⟩
        · rename_i st2 tr heq2
          rw [heq2] at c2
          have c3 := generate_summary_stage_inv env a am tr hasGpt
            (cachePath cfg a.task_id "_markdown.md") st2
          split at h
          · rename_i st3 e heq3
            rw [heq3] at c3
            rw [Prod.mk.injEq] at h
            obtain ⟨hst, -⟩ := h
            subst hst
            exact ⟨c3.2.2.1.trans c2.2.2.2.2.1, c3.1.trans c2.1,
                   c3.2.2.2.2.trans (c2.2.2.2.2.2.trans hvp)⟩
          · rename_i st3 md0 heq3
            rw [heq3] at c3
            have hvp3 : st3.video_path = none :=
              c3.2.2.2.2.trans (c2.2.2.2.2.2.trans hvp)
            have hne : a._format.isEmpty = false := by
              cases hf : a._format with
              | nil =>
                rw [hf] at hfmt
                simp at hfmt
              | cons x xs => simp [hf]
            have hpost : generate_post_stage env cfg a am md0 st3 =
                post_process_markdown env cfg md0 st3.video_path a._format
                  am a.platform st3 := by
              simp [generate_post_stage, hcli, hne]
            rw [hpost, hvp3,
                post_process_none env cfg md0 a._format am a.platform st3 hcli]
              at h
            by_cases hl : a._format.contains "link" = true
            · rw [if_pos hl] at h
              rw [Prod.mk.injEq] at h
              obtain ⟨hst, -⟩ := h
              subst hst
              refine ⟨?_, ?_, ?_⟩
              · simp [generate_finalize, hcli]
                exact c3.2.2.1.trans c2.2.2.2.2.1
              · simp [generate_finalize, hcli]
                exact c3.1.trans c2.1
              · simp [generate_finalize, hcli]
                exact hvp3
            · rw [if_neg hl] at h
              rw [Prod.mk.injEq] at h
              obtain ⟨hst, -⟩ := h
              subst hst
              refine ⟨?_, ?_, ?_⟩
              · simp [generate_finalize, hcli]
                exact c3.2.2.1.trans c2.2.2.2.2.1
              · simp [generate_finalize, hcli]
                exact c3.1.trans c2.1
              · simp [generate_finalize, hcli]
                exact hvp3
  · intro md plat st'
    exact post_process_none env cfg md a._format am plat st' hcli

/-- Witness for `cached_download_skips_screenshots`: with the download
artifact cached, a concrete screenshot-requesting service call extracts
no frame, downloads no video, and keeps the video path unset. -/
theorem cached_download_skips_screenshots_witness :
    ((generateBody envW cfgService aScreenshot stCachedAudio).1.calls.videoDownloads =
        stCachedAudio.calls.videoDownloads
      ∧ (generateBody envW cfgService aScreenshot stCachedAudio).1.calls.frames =
          stCachedAudio.calls.frames
      ∧ (generateBody envW cfgService aScreenshot stCachedAudio).1.video_path = none)
    ∧ post_process_markdown envW cfgService "md *Screenshot-00:10" none
        aScreenshot._format audioW "bilibili" stEmpty =
        (stEmpty, "md *Screenshot-00:10") := by
  have h := cached_download_skips_screenshots envW cfgService aScreenshot
    stCachedAudio audioW rfl rfl rfl rfl rfl
  refine ⟨h.1 _ _ (by rfl), ?_⟩
  rw [h.2 "md *Screenshot-00:10" "bilibili" stEmpty]
  rfl

/-! ## CLI result emission (C7) -/

theorem save_cli_result_atomic (bvid : String) (payload : CliPayload) :
    tempThenRenameAt (save_cli_result bvid payload) (cliResultPath bvid) = true := by
  have hne : ¬ (cliResultPath bvid ++ ".tmp" = cliResultPath bvid) := by
    intro hcontra
    have hlen := congrArg String.length hcontra
    rw [String.length_append] at hlen
    have h4 : (".tmp" : String).length = 4 := rfl
    omega
  simp [save_cli_result, tempThenRenameAt, writesDirectlyTo,
        FsOp.isWriteTo, FsOp.isRenameTo, hne]

/-- **C7**: every batch-mode result document — success or failure — is
produced by `save_cli_result`, which writes the payload to the `.tmp`
sibling and atomically renames it onto the deterministic path derived
from the extracted business key, so the final path never receives a
direct in-place write; the failure branches write a `FAILED` document
carrying the triggering error's message, the success branch a `SUCCESS`
document, through the same discipline. -/
theorem atomic_cli_finalize (env : Env) (regEnv : RegEnv)
    (urlHash : String → Nat) (ttype url : String) (st : GenState) :
    (∀ bvid payload, tempThenRenameAt (save_cli_result bvid payload)
        (cliResultPath bvid) = true)
    ∧ tempThenRenameAt (cliMain env regEnv urlHash ttype url st).ops
        (cliResultPath (extract_bvid urlHash url)) = true
    ∧ (∀ e, (noteGenerator_init_transcriber regEnv ttype regState0).2 = .error e →
        (cliMain env regEnv urlHash ttype url st).ops =
          save_cli_result (extract_bvid urlHash url)
            (cliFailPayload (extract_bvid urlHash url) url e.msg))
    ∧ (∀ v, (noteGenerator_init_transcriber regEnv ttype regState0).2 = .ok v →
        (generate env cliModeConfig
          (cliArgs url ("task_" ++ extract_bvid urlHash url)) st).2 = none →
        (cliMain env regEnv urlHash ttype url st).ops =
          save_cli_result (extract_bvid urlHash url)
            (cliFailPayload (extract_bvid urlHash url) url "转写失败或结果为空"))
    ∧ (∀ bvid u m, (cliFailPayload bvid u m).status = "FAILED"
        ∧ (cliFailPayload bvid u m).error = some m)
    ∧ (∀ bvid u r t, (cliSuccessPayload bvid u r t).status = "SUCCESS") := by
  refine ⟨fun bvid payload => save_cli_result_atomic bvid payload, ?_, ?_, ?_,
         fun bvid u m => ⟨rfl, rfl⟩, fun bvid u r t => rfl⟩
  · unfold cliMain
    repeat' split
    all_goals exact save_cli_result_atomic _ _
  · intro e he
    unfold cliMain
    split
    · rename_i e' heq
      rw [he] at heq
      injection heq with heq
      subst heq
      rfl
    · rename_i v heq
      rw [he] at heq
      simp at heq
  · intro v hok hnone
    unfold cliMain
    split
    · rename_i e heq
      rw [hok] at heq
      simp at heq
    · rename_i v' heq
      split
      · rfl
      · rename_i r heq2
        rw [hnone] at heq2
        simp at heq2

/-- Witness for `atomic_cli_finalize`: a concrete run whose download
fails writes the `FAILED` document atomically onto the path derived from
the extracted BV id; a run with an unsupported configured transcriber
type writes the `FAILED` document carrying that error message. -/
theorem atomic_cli_finalize_witness :
    tempThenRenameAt (cliMain envFailA regEnvNoMlx (fun _ => 0) "fast-whisper"
        "https://b23.tv/BV1xx411c7ab" stEmpty).ops
      (cliResultPath "BV1xx411c7ab") = true
    ∧ (cliMain envFailA regEnvNoMlx (fun _ => 0) "fast-whisper"
        "https://b23.tv/BV1xx411c7ab" stEmpty).ops =
      save_cli_result "BV1xx411c7ab"
        (cliFailPayload "BV1xx411c7ab" "https://b23.tv/BV1xx411c7ab"
          "转写失败或结果为空")
    ∧ (cliMain envFailA regEnvNoMlx (fun _ => 0) "bogus"
        "https://b23.tv/BV1xx411c7ab" stEmpty).ops =
      save_cli_result "BV1xx411c7ab"
        (cliFailPayload "BV1xx411c7ab" "https://b23.tv/BV1xx411c7ab"
          "不支持的转写器：bogus") := by
  have h1 := atomic_cli_finalize envFailA regEnvNoMlx (fun _ => 0)
    "fast-whisper" "https://b23.tv/BV1xx411c7ab" stEmpty
  have h2 := atomic_cli_finalize envFailA regEnvNoMlx (fun _ => 0)
    "bogus" "https://b23.tv/BV1xx411c7ab" stEmpty
  exact ⟨h1.2.1, h1.2.2.2.1 ⟨1⟩ rfl (by rfl),
         h2.2.2.1 (.exception "不支持的转写器：bogus") rfl⟩

/-! ## Screenshot marker post-processing (C8) -/

theorem replaceFirst_at_head (pat rep suf : List Char) :
    replaceFirstChars pat rep (pat ++ suf) = rep ++ suf := by
  cases pat with
  | nil =>
    cases suf with
    | nil => simp [replaceFirstChars]
    | cons c cs => simp [replaceFirstChars]
  | cons p ps =>
    have hpre : (p :: ps).isPrefixOf (p :: (ps ++ suf)) = true := by
      rw [← List.cons_append, List.isPrefixOf_iff_prefix]
      exact List.prefix_append _ _
    have hdrop : (p :: (ps ++ suf)).drop (p :: ps).length = suf := by
      rw [← List.cons_append, List.drop_left]
    show replaceFirstChars (p :: ps) rep (p :: (ps ++ suf)) = rep ++ suf
    rw [replaceFirstChars, hpre, hdrop]
    simp

theorem extractMarkersAux_ast (fuel : Nat) (d1 d2 d3 d4 : Char)
    (h1 : d1.isDigit = true) (h2 : d2.isDigit = true)
    (h3 : d3.isDigit = true) (h4 : d4.isDigit = true) :
    extractMarkersAux (fuel + 1)
      ['*', 'S', 'c', 'r', 'e', 'e', 'n', 's', 'h', 'o', 't', '-',
       d1, d2, ':', d3, d4] =
      [(['*', 'S', 'c', 'r', 'e', 'e', 'n', 's', 'h', 'o', 't', '-',
         d1, d2, ':', d3, d4],
        (10 * digitVal d1 + digitVal d2) * 60 +
          (10 * digitVal d3 + digitVal d4))] := by
  have ha : astPat = ['*', 'S', 'c', 'r', 'e', 'e', 'n', 's', 'h', 'o', 't', '-'] := rfl
  have hm : matchMarker
      ['*', 'S', 'c', 'r', 'e', 'e', 'n', 's', 'h', 'o', 't', '-',
       d1, d2, ':', d3, d4] =
      some (['*', 'S', 'c', 'r', 'e', 'e', 'n', 's', 'h', 'o', 't', '-',
             d1, d2, ':', d3, d4],
        (10 * digitVal d1 + digitVal d2) * 60 +
          (10 * digitVal d3 + digitVal d4), 17) := by
    simp [matchMarker, ha, dropPrefixCh, matchTimestampAt, h1, h2, h3, h4]
  simp [extractMarkersAux, hm]

theorem extractMarkersAux_brk (fuel : Nat) (d1 d2 d3 d4 : Char)
    (h1 : d1.isDigit = true) (h2 : d2.isDigit = true)
    (h3 : d3.isDigit = true) (h4 : d4.isDigit = true) :
    extractMarkersAux (fuel + 1)
      ['S', 'c', 'r', 'e', 'e', 'n', 's', 'h', 'o', 't', '-', '[',
       d1, d2, ':', d3, d4, ']'] =
      [(['S', 'c', 'r', 'e', 'e', 'n', 's', 'h', 'o', 't', '-', '[',
         d1, d2, ':', d3, d4, ']'],
        (10 * digitVal d1 + digitVal d2) * 60 +
          (10 * digitVal d3 + digitVal d4))] := by
  have ha : astPat = ['*', 'S', 'c', 'r', 'e', 'e', 'n', 's', 'h', 'o', 't', '-'] := rfl
  have hb : brkPat = ['S', 'c', 'r', 'e', 'e', 'n', 's', 'h', 'o', 't', '-', '['] := rfl
  have hm : matchMarker
      ['S', 'c', 'r', 'e', 'e', 'n', 's', 'h', 'o', 't', '-', '[',
       d1, d2, ':', d3, d4, ']'] =
      some (['S', 'c', 'r', 'e', 'e', 'n', 's', 'h', 'o', 't', '-', '[',
             d1, d2, ':', d3, d4, ']'],
        (10 * digitVal d1 + digitVal d2) * 60 +
          (10 * digitVal d3 + digitVal d4), 18) := by
    simp [matchMarker, ha, hb, dropPrefixCh, matchTimestampAt, h1, h2, h3, h4]
  simp [extractMarkersAux, hm]

/-- **C8**: the screenshot post-processor finds both marker forms in
document order, assigns each match the frame-extraction index equal to
its position among all matches (the trace of `(offset, index)` requests
is exactly the enumeration of the extracted matches, so indices are
`0, 1, 2, ...` in document order), decodes each two-digit
`minutes:seconds` timestamp as `minutes*60 + seconds` (for both the
asterisked and the bracketed form, over arbitrary digits), and replaces
the first remaining occurrence of the literal marker text; on the spec's
three-marker example at `01:05`, `00:20`, `02:00` the indices are
`0, 1, 2` by document order, not timestamp order, and the emitted image
references are built from the configured base URL and the rendered
file name. -/
theorem screenshot_marker_processing :
    (∀ (env : Env) (cfg : ModeConfig) (md vp : String) (st : GenState),
      (insert_screenshots env cfg md vp st).1.calls.frames =
        st.calls.frames ++
          (extract_screenshot_timestamps md).enum.map (fun p => (p.2.2, p.1)))
    ∧ (∀ md : String,
        (extract_screenshot_timestamps md).enum.map Prod.fst =
          List.range (extract_screenshot_timestamps md).length)
    ∧ (∀ d1 d2 d3 d4 : Char, d1.isDigit = true → d2.isDigit = true →
        d3.isDigit = true → d4.isDigit = true →
        extract_screenshot_timestamps
          (String.mk ['*', 'S', 'c', 'r', 'e', 'e', 'n', 's', 'h', 'o', 't',
            '-', d1, d2, ':', d3, d4]) =
          [(String.mk ['*', 'S', 'c', 'r', 'e', 'e', 'n', 's', 'h', 'o', 't',
              '-', d1, d2, ':', d3, d4],
            (10 * digitVal d1 + digitVal d2) * 60 +
              (10 * digitVal d3 + digitVal d4))])
    ∧ (∀ d1 d2 d3 d4 : Char, d1.isDigit = true → d2.isDigit = true →
        d3.isDigit = true → d4.isDigit = true →
        extract_screenshot_timestamps
          (String.mk ['S', 'c', 'r', 'e', 'e', 'n', 's', 'h', 'o', 't', '-',
            '[', d1, d2, ':', d3, d4, ']']) =
          [(String.mk ['S', 'c', 'r', 'e', 'e', 'n', 's', 'h', 'o', 't', '-',
              '[', d1, d2, ':', d3, d4, ']'],
            (10 * digitVal d1 + digitVal d2) * 60 +
              (10 * digitVal d3 + digitVal d4))])
    ∧ (∀ pat rep suf : List Char,
        replaceFirstChars pat rep (pat ++ suf) = rep ++ suf)
    ∧ extract_screenshot_timestamps
        "a *Screenshot-01:05 b Screenshot-[00:20] c *Screenshot-02:00 d" =
        [("*Screenshot-01:05", 65), ("Screenshot-[00:20]", 20),
         ("*Screenshot-02:00", 120)]
    ∧ (insert_screenshots envW cfgService
        "a *Screenshot-01:05 b Screenshot-[00:20] c *Screenshot-02:00 d"
        "/tmp/v.mp4" stEmpty).1.calls.frames = [(65, 0), (20, 1), (120, 2)]
    ∧ (insert_screenshots envW cfgService
        "a *Screenshot-01:05 b Screenshot-[00:20] c *Screenshot-02:00 d"
        "/tmp/v.mp4" stEmpty).2 =
        "a ![](/static/screenshots/s_0_65.png) b ![](/static/screenshots/s_1_20.png) c ![](/static/screenshots/s_2_120.png) d"
    ∧ replaceFirst "x *Screenshot-01:05 y *Screenshot-01:05 z"
        "*Screenshot-01:05" "IMG" = "x IMG y *Screenshot-01:05 z" := by
  refine ⟨?_, ?_, ?_, ?_, replaceFirst_at_head, by decide, by decide,
         by decide, by decide⟩
  · intro env cfg md vp st
    rw [insert_screenshots_state]
  · intro md
    exact List.enum_map_fst _
  · intro d1 d2 d3 d4 h1 h2 h3 h4
    have hstep : extract_screenshot_timestamps
        (String.mk ['*', 'S', 'c', 'r', 'e', 'e', 'n', 's', 'h', 'o', 't',
          '-', d1, d2, ':', d3, d4]) =
        (extractMarkersAux (16 + 1)
          ['*', 'S', 'c', 'r', 'e', 'e', 'n', 's', 'h', 'o', 't', '-',
           d1, d2, ':', d3, d4]).map (fun p => (String.mk p.1, p.2)) := rfl
    rw [hstep, extractMarkersAux_ast 16 d1 d2 d3 d4 h1 h2 h3 h4]
    simp
  · intro d1 d2 d3 d4 h1 h2 h3 h4
    have hstep : extract_screenshot_timestamps
        (String.mk ['S', 'c', 'r', 'e', 'e', 'n', 's', 'h', 'o', 't', '-',
          '[', d1, d2, ':', d3, d4, ']']) =
        (extractMarkersAux (17 + 1)
          ['S', 'c', 'r', 'e', 'e', 'n', 's', 'h', 'o', 't', '-', '[',
           d1, d2, ':', d3, d4, ']']).map (fun p => (String.mk p.1, p.2)) := rfl
    rw [hstep, extractMarkersAux_brk 17 d1 d2 d3 d4 h1 h2 h3 h4]
    simp

/-- Witness for `screenshot_marker_processing` at concrete digits. -/
theorem screenshot_marker_processing_witness :
    extract_screenshot_timestamps
      (String.mk ['*', 'S', 'c', 'r', 'e', 'e', 'n', 's', 'h', 'o', 't',
        '-', '0', '1', ':', '0', '5']) =
      [(String.mk ['*', 'S', 'c', 'r', 'e', 'e', 'n', 's', 'h', 'o', 't',
          '-', '0', '1', ':', '0', '5'], 65)]
    ∧ extract_screenshot_timestamps
      (String.mk ['S', 'c', 'r', 'e', 'e', 'n', 's', 'h', 'o', 't', '-',
        '[', '0', '0', ':', '2', '0', ']']) =
      [(String.mk ['S', 'c', 'r', 'e', 'e', 'n', 's', 'h', 'o', 't', '-',
          '[', '0', '0', ':', '2', '0', ']'], 20)] := by
  have h := screenshot_marker_processing
  exact ⟨h.2.2.1 '0' '1' '0' '5' rfl rfl rfl rfl,
         h.2.2.2.1 '0' '0' '2' '0' rfl rfl rfl rfl⟩

end BillNote
